import Mathlib

/-!
Verification development for the Mooltipass USB command parser
(`src/USB/usb_cmd_parser.c`).

The dispatcher `usbProcessIncoming` is embedded as a pure function from
an environment of collaborator oracles, the device state (the file's
global variables plus the flash-chip internal buffer, flash pages and
the eeprom), the `caller_id` argument and the received packet, to the
new device state together with the ordered list of side-effecting
collaborator calls (the event trace).  Collaborator calls that only read
state held outside this file are modelled by oracle fields of `Env`;
calls that mutate external state or perform I/O are recorded as events,
in program order.

Build configuration embedded (the standard firmware build):
`USB_FEATURE_PLUGIN_COMMS` defined; `DEV_PLUGIN_COMMS`,
`AVR_BOOTLOADER_PROGRAMMING`, `MINI_VERSION`,
`POST_KICKSTARTER_UPDATE_SETUP` and `MINI_PREPRODUCTION_SETUP`
undefined.

Numeric constants come from headers that are not part of src/
(`usb_cmd_parser.h`, `node_mgmt.h`, `defines.h`, ...); they are modelled
from the spec, with values chosen consistently (distinct command codes,
the data-management command range covering exactly the node-address
level commands, distinct text-field maxima).
-/

namespace Mooltipass

/-- Modelled from the spec: transport transfer sizes from `usb.h` /
`hid_defines.h`, missing from src.  A raw HID transfer is 64 bytes, the
2-byte header (`len`, `cmd`) precedes the data. -/
def RAWHID_TX_SIZE : Nat := 64

/-- Modelled from the spec: receive transfer size, 64 bytes. -/
def RAWHID_RX_SIZE : Nat := 64

/-- Modelled from the spec: offset of the data area in a HID packet. -/
def HID_DATA_START : Nat := 2

/-- Modelled from the spec: maximum payload of a packet,
`RAWHID_RX_SIZE - HID_DATA_START` = 62 bytes. -/
def PACKET_EXPORT_SIZE : Nat := 62

/-- Modelled from the spec: fixed node size in flash (`node_mgmt.h`,
missing from src). -/
def NODE_SIZE : Nat := 132

/-- Modelled from the spec: size of one opaque data block chained to a
data-type child node. -/
def DATA_NODE_BLOCK_SIZ : Nat := 32

/-- Modelled from the spec: maximum service-name length in a parent
node. -/
def NODE_PARENT_SIZE_OF_SERVICE : Nat := 58

/-- Modelled from the spec: maximum login length in a child node. -/
def NODE_CHILD_SIZE_OF_LOGIN : Nat := 63

/-- Modelled from the spec: maximum password length in a child node. -/
def NODE_CHILD_SIZE_OF_PASSWORD : Nat := 32

/-- Modelled from the spec: smartcard-resident login field length in
bits (`smartcard.h`, missing from src); 496/8 = 62 bytes. -/
def SMARTCARD_MTP_LOGIN_LENGTH : Nat := 496

/-- Modelled from the spec: smartcard-resident password field length in
bits; 240/8 = 30 bytes. -/
def SMARTCARD_MTP_PASS_LENGTH : Nat := 240

/-- Modelled from the spec: bit offset of the login inside application
zone 2 of the smartcard. -/
def SMARTCARD_MTP_LOGIN_OFFSET : Nat := 144

/-- Modelled from the spec: bit offset of the password inside
application zone 1 of the smartcard. -/
def SMARTCARD_MTP_PASS_OFFSET : Nat := 16

/-- Modelled from the spec: bit length of one smartcard application
zone. -/
def SMARTCARD_AZ_BIT_LENGTH : Nat := 512

/-- Modelled from the spec: length of the smartcard code protected zone
in bytes. -/
def SMARTCARD_CPZ_LENGTH : Nat := 8

/-- Modelled from the spec: AES-256 CTR nonce length in bytes. -/
def AES256_CTR_LENGTH : Nat := 16

/-- Modelled from the spec: AES key length in bits. -/
def AES_KEY_LENGTH : Nat := 256

/-- Modelled from the spec: per-profile CTR value size in bytes. -/
def USER_CTR_SIZE : Nat := 3

/-- Modelled from the spec: `NODE_ADDR_NULL` sentinel, "no node". -/
def NODE_ADDR_NULL : Nat := 0

/-- Modelled from the spec: number of favorite slots in the per-user
favorites table (`node_mgmt.h`, missing from src). -/
def USER_MAX_FAV : Nat := 14

/-- Modelled from the spec: UID request key size in bytes. -/
def UID_REQUEST_KEY_SIZE : Nat := 16

/-- Modelled from the spec: UID size in bytes. -/
def UID_SIZE : Nat := 6

/-- Modelled from the spec: bytes per flash page (8 nodes of
`NODE_SIZE` bytes). -/
def BYTES_PER_PAGE : Nat := 1056

/-- Modelled from the spec: first page of the reserved graphics/media
zone of flash. -/
def GRAPHIC_ZONE_PAGE_START : Nat := 128

/-- Modelled from the spec: one-past-last page of the graphics zone. -/
def GRAPHIC_ZONE_PAGE_END : Nat := 256

/-- Modelled from the spec: the `caller_id` used by the main loop. -/
def USB_CALLER_MAIN : Nat := 0

/-- Modelled from the spec: the `caller_id` used while the device is
asking the user to enter the PIN. -/
def USB_CALLER_PIN : Nat := 1

/-- Modelled from the spec: screen identifiers (`gui.h`, missing from
src); only distinctness and the named cases matter. -/
def SCREEN_DEFAULT_NINSERTED : Nat := 0

/-- Modelled from the spec: screen shown with a locked known card. -/
def SCREEN_DEFAULT_INSERTED_LCK : Nat := 1

/-- Modelled from the spec: screen shown with an unlocked card. -/
def SCREEN_DEFAULT_INSERTED_NLCK : Nat := 2

/-- Modelled from the spec: screen shown with an unknown card. -/
def SCREEN_DEFAULT_INSERTED_UNKNOWN : Nat := 3

/-- Modelled from the spec: screen shown with an invalid card. -/
def SCREEN_DEFAULT_INSERTED_INVALID : Nat := 4

/-- Modelled from the spec: memory management mode screen. -/
def SCREEN_MEMORY_MGMT : Nat := 5

/-- Modelled from the spec: generic error response byte. -/
def PLUGIN_BYTE_ERROR : Nat := 0

/-- Modelled from the spec: OK response byte. -/
def PLUGIN_BYTE_OK : Nat := 1

/-- Modelled from the spec: not-applicable response byte. -/
def PLUGIN_BYTE_NA : Nat := 2

/-- Modelled from the spec: no-card response byte. -/
def PLUGIN_BYTE_NOCARD : Nat := 3

/-- Modelled from the spec: credential service type tag. -/
def SERVICE_CRED_TYPE : Nat := 0

/-- Modelled from the spec: data service type tag. -/
def SERVICE_DATA_TYPE : Nat := 1

/-- Modelled from the spec: password-check result, mismatch. -/
def RETURN_PASS_CHECK_NOK : Nat := 0

/-- Modelled from the spec: password-check result, match. -/
def RETURN_PASS_CHECK_OK : Nat := 1

/-- Modelled from the spec: timer id used by the anti timing attack
delay of password comparisons. -/
def TIMER_CREDENTIALS : Nat := 0

/-- Modelled from the spec: eeprom address of the bootloader boot key
(`eeprom_addresses.h`, missing from src; only distinctness of the
addresses matters). -/
def EEP_BOOTKEY_ADDR : Nat := 0

/-- Modelled from the spec: eeprom address of the backup boot key. -/
def EEP_BACKUP_BOOTKEY_ADDR : Nat := 2

/-- Modelled from the spec: eeprom address of the bootloader password
(`PACKET_EXPORT_SIZE` bytes). -/
def EEP_BOOT_PWD : Nat := 4

/-- Modelled from the spec: eeprom address of the
bootloader-password-set sentinel byte. -/
def EEP_BOOT_PWD_SET : Nat := 66

/-- Modelled from the spec: eeprom address of the
UID-request-key-set sentinel byte. -/
def EEP_UID_REQUEST_KEY_SET_ADDR : Nat := 67

/-- Modelled from the spec: eeprom address of the UID request key
(16 bytes), directly followed by the UID. -/
def EEP_UID_REQUEST_KEY_ADDR : Nat := 68

/-- Modelled from the spec: eeprom address of the UID (6 bytes). -/
def EEP_UID_ADDR : Nat := 84

/-- Modelled from the spec: sentinel value meaning the bootloader
password has been set. -/
def BOOTLOADER_PWDOK_KEY : Nat := 146

/-- Modelled from the spec: sentinel value meaning the UID request key
has been set. -/
def UID_REQUEST_KEY_OK_KEY : Nat := 153

/-- Modelled from the spec: boot key written to jump to bootloader. -/
def BOOTLOADER_BOOTKEY : Nat := 57005

/-- Modelled from the spec: boot key of a normal boot. -/
def CORRECT_BOOTKEY : Nat := 48879

/-- Modelled from the spec: parameter id of the lock-timeout-enable
parameter. -/
def LOCK_TIMEOUT_ENABLE_PARAM : Nat := 1

/-- Modelled from the spec: the build-time version string sent by
`CMD_VERSION` (content irrelevant to the claims). -/
def mooltipass_version : List Nat := [49, 0]

/-! Command codes, from `usb_cmd_parser.h` (missing from src).
Modelled from the spec: distinct byte values; the data-management range
`FIRST_CMD_FOR_DATAMGMT..LAST_CMD_FOR_DATAMGMT` contains exactly the
node-address-level commands whose cases in the switch carry the comment
"Memory management mode check implemented before the switch" plus
`CMD_WRITE_FLASH_NODE`. -/

/-- Modelled from the spec: ping command code. -/
def CMD_PING : Nat := 0x02
/-- Modelled from the spec: version command code. -/
def CMD_VERSION : Nat := 0x03
/-- Modelled from the spec: set credential context command code. -/
def CMD_CONTEXT : Nat := 0x04
/-- Modelled from the spec: get login command code. -/
def CMD_GET_LOGIN : Nat := 0x05
/-- Modelled from the spec: get password command code. -/
def CMD_GET_PASSWORD : Nat := 0x06
/-- Modelled from the spec: set login command code. -/
def CMD_SET_LOGIN : Nat := 0x07
/-- Modelled from the spec: set password command code. -/
def CMD_SET_PASSWORD : Nat := 0x08
/-- Modelled from the spec: check password command code. -/
def CMD_CHECK_PASSWORD : Nat := 0x09
/-- Modelled from the spec: add credential context command code. -/
def CMD_ADD_CONTEXT : Nat := 0x0A
/-- Modelled from the spec: set bootloader password command code. -/
def CMD_SET_BOOTLOADER_PWD : Nat := 0x0B
/-- Modelled from the spec: jump to bootloader command code. -/
def CMD_JUMP_TO_BOOTLOADER : Nat := 0x0C
/-- Modelled from the spec: get random bytes command code. -/
def CMD_GET_RANDOM_NUMBER : Nat := 0x0D
/-- Modelled from the spec: enter memory management mode command. -/
def CMD_START_MEMORYMGMT : Nat := 0x0E
/-- Modelled from the spec: media import start command code. -/
def CMD_IMPORT_MEDIA_START : Nat := 0x0F
/-- Modelled from the spec: media import data command code. -/
def CMD_IMPORT_MEDIA : Nat := 0x10
/-- Modelled from the spec: media import end command code. -/
def CMD_IMPORT_MEDIA_END : Nat := 0x11
/-- Modelled from the spec: set parameter command code. -/
def CMD_SET_MOOLTIPASS_PARM : Nat := 0x12
/-- Modelled from the spec: get parameter command code. -/
def CMD_GET_MOOLTIPASS_PARM : Nat := 0x13
/-- Modelled from the spec: reset card command code. -/
def CMD_RESET_CARD : Nat := 0x14
/-- Modelled from the spec: read card login command code. -/
def CMD_READ_CARD_LOGIN : Nat := 0x15
/-- Modelled from the spec: read card password command code. -/
def CMD_READ_CARD_PASS : Nat := 0x16
/-- Modelled from the spec: set card login command code. -/
def CMD_SET_CARD_LOGIN : Nat := 0x17
/-- Modelled from the spec: set card password command code. -/
def CMD_SET_CARD_PASS : Nat := 0x18
/-- Modelled from the spec: add unknown card command code. -/
def CMD_ADD_UNKNOWN_CARD : Nat := 0x19
/-- Modelled from the spec: status query command code. -/
def CMD_MOOLTIPASS_STATUS : Nat := 0x1A
/-- Modelled from the spec: unlock with PIN over USB command code. -/
def CMD_UNLOCK_WITH_PIN : Nat := 0x1B
/-- Modelled from the spec: set date command code. -/
def CMD_SET_DATE : Nat := 0x1C
/-- Modelled from the spec: one-time UID provisioning command code. -/
def CMD_SET_UID : Nat := 0x1D
/-- Modelled from the spec: UID retrieval command code. -/
def CMD_GET_UID : Nat := 0x1E
/-- Modelled from the spec: set data service context command code. -/
def CMD_SET_DATA_SERVICE : Nat := 0x1F
/-- Modelled from the spec: add data service command code. -/
def CMD_ADD_DATA_SERVICE : Nat := 0x20
/-- Modelled from the spec: append 32-byte data block command code. -/
def CMD_WRITE_32B_IN_DN : Nat := 0x21
/-- Modelled from the spec: read 32-byte data block command code. -/
def CMD_READ_32B_IN_DN : Nat := 0x22
/-- Modelled from the spec: get current card CPZ command code. -/
def CMD_GET_CUR_CARD_CPZ : Nat := 0x23
/-- Modelled from the spec: cancel request command code. -/
def CMD_CANCEL_REQUEST : Nat := 0x24
/-- Modelled from the spec: get description command code. -/
def CMD_GET_DESCRIPTION : Nat := 0x25
/-- Modelled from the spec: read flash node command code. -/
def CMD_READ_FLASH_NODE : Nat := 0x30
/-- Modelled from the spec: write flash node command code. -/
def CMD_WRITE_FLASH_NODE : Nat := 0x31
/-- Modelled from the spec: set favorite command code. -/
def CMD_SET_FAVORITE : Nat := 0x32
/-- Modelled from the spec: get favorite command code. -/
def CMD_GET_FAVORITE : Nat := 0x33
/-- Modelled from the spec: set starting parent command code. -/
def CMD_SET_STARTING_PARENT : Nat := 0x34
/-- Modelled from the spec: get starting parent command code. -/
def CMD_GET_STARTING_PARENT : Nat := 0x35
/-- Modelled from the spec: set CTR value command code. -/
def CMD_SET_CTRVALUE : Nat := 0x36
/-- Modelled from the spec: get CTR value command code. -/
def CMD_GET_CTRVALUE : Nat := 0x37
/-- Modelled from the spec: add card CPZ/CTR entry command code. -/
def CMD_ADD_CARD_CPZ_CTR : Nat := 0x38
/-- Modelled from the spec: get card CPZ/CTR entries command code. -/
def CMD_GET_CARD_CPZ_CTR : Nat := 0x39
/-- Modelled from the spec: get free node slots command code. -/
def CMD_GET_FREE_SLOTS_ADDR : Nat := 0x3A
/-- Modelled from the spec: set data starting parent command code. -/
def CMD_SET_DN_START_PARENT : Nat := 0x3B
/-- Modelled from the spec: get data starting parent command code. -/
def CMD_GET_DN_START_PARENT : Nat := 0x3C
/-- Modelled from the spec: exit memory management mode command. -/
def CMD_END_MEMORYMGMT : Nat := 0x3D

/-- Modelled from the spec: first command code of the reserved
data-management range. -/
def FIRST_CMD_FOR_DATAMGMT : Nat := CMD_READ_FLASH_NODE

/-- Modelled from the spec: last command code of the reserved
data-management range. -/
def LAST_CMD_FOR_DATAMGMT : Nat := CMD_END_MEMORYMGMT

attribute [simp] RAWHID_TX_SIZE RAWHID_RX_SIZE HID_DATA_START PACKET_EXPORT_SIZE
  NODE_SIZE DATA_NODE_BLOCK_SIZ NODE_PARENT_SIZE_OF_SERVICE NODE_CHILD_SIZE_OF_LOGIN
  NODE_CHILD_SIZE_OF_PASSWORD SMARTCARD_MTP_LOGIN_LENGTH SMARTCARD_MTP_PASS_LENGTH
  SMARTCARD_MTP_LOGIN_OFFSET SMARTCARD_MTP_PASS_OFFSET SMARTCARD_AZ_BIT_LENGTH
  SMARTCARD_CPZ_LENGTH AES256_CTR_LENGTH AES_KEY_LENGTH USER_CTR_SIZE NODE_ADDR_NULL
  USER_MAX_FAV UID_REQUEST_KEY_SIZE UID_SIZE BYTES_PER_PAGE GRAPHIC_ZONE_PAGE_START
  GRAPHIC_ZONE_PAGE_END USB_CALLER_MAIN USB_CALLER_PIN SCREEN_DEFAULT_NINSERTED
  SCREEN_DEFAULT_INSERTED_LCK SCREEN_DEFAULT_INSERTED_NLCK
  SCREEN_DEFAULT_INSERTED_UNKNOWN SCREEN_DEFAULT_INSERTED_INVALID SCREEN_MEMORY_MGMT
  PLUGIN_BYTE_ERROR PLUGIN_BYTE_OK PLUGIN_BYTE_NA PLUGIN_BYTE_NOCARD
  SERVICE_CRED_TYPE SERVICE_DATA_TYPE RETURN_PASS_CHECK_NOK RETURN_PASS_CHECK_OK
  TIMER_CREDENTIALS EEP_BOOTKEY_ADDR EEP_BACKUP_BOOTKEY_ADDR EEP_BOOT_PWD
  EEP_BOOT_PWD_SET EEP_UID_REQUEST_KEY_SET_ADDR EEP_UID_REQUEST_KEY_ADDR EEP_UID_ADDR
  BOOTLOADER_PWDOK_KEY UID_REQUEST_KEY_OK_KEY BOOTLOADER_BOOTKEY CORRECT_BOOTKEY
  LOCK_TIMEOUT_ENABLE_PARAM mooltipass_version CMD_PING CMD_VERSION CMD_CONTEXT
  CMD_GET_LOGIN CMD_GET_PASSWORD CMD_SET_LOGIN CMD_SET_PASSWORD CMD_CHECK_PASSWORD
  CMD_ADD_CONTEXT CMD_SET_BOOTLOADER_PWD CMD_JUMP_TO_BOOTLOADER CMD_GET_RANDOM_NUMBER
  CMD_START_MEMORYMGMT CMD_IMPORT_MEDIA_START CMD_IMPORT_MEDIA CMD_IMPORT_MEDIA_END
  CMD_SET_MOOLTIPASS_PARM CMD_GET_MOOLTIPASS_PARM CMD_RESET_CARD CMD_READ_CARD_LOGIN
  CMD_READ_CARD_PASS CMD_SET_CARD_LOGIN CMD_SET_CARD_PASS CMD_ADD_UNKNOWN_CARD
  CMD_MOOLTIPASS_STATUS CMD_UNLOCK_WITH_PIN CMD_SET_DATE CMD_SET_UID CMD_GET_UID
  CMD_SET_DATA_SERVICE CMD_ADD_DATA_SERVICE CMD_WRITE_32B_IN_DN CMD_READ_32B_IN_DN
  CMD_GET_CUR_CARD_CPZ CMD_CANCEL_REQUEST CMD_GET_DESCRIPTION CMD_READ_FLASH_NODE
  CMD_WRITE_FLASH_NODE CMD_SET_FAVORITE CMD_GET_FAVORITE CMD_SET_STARTING_PARENT
  CMD_GET_STARTING_PARENT CMD_SET_CTRVALUE CMD_GET_CTRVALUE CMD_ADD_CARD_CPZ_CTR
  CMD_GET_CARD_CPZ_CTR CMD_GET_FREE_SLOTS_ADDR CMD_SET_DN_START_PARENT
  CMD_GET_DN_START_PARENT CMD_END_MEMORYMGMT FIRST_CMD_FOR_DATAMGMT
  LAST_CMD_FOR_DATAMGMT

/-! Basic byte/list helpers used by the embedding. -/

/-- C `strlen` on a byte buffer: number of bytes before the first
null.  The received data area is finite; bytes past the modelled list
read as 0 (a terminator), matching `List.getD _ _ 0` access used
throughout. -/
def strlenL (l : List Nat) : Nat := (l.takeWhile (fun b => b ≠ 0)).length

/-- C `tolower` in the C locale, on a byte. -/
def toLowerByte (b : Nat) : Nat := if 65 ≤ b ∧ b ≤ 90 then b + 32 else b

/-- `lowerCaseString` from usb_cmd_parser.c: lower-case the bytes of a
null-terminated string in place, stopping at the first null. -/
def lowerCaseString : List Nat → List Nat
  | [] => []
  | b :: rest => if b = 0 then b :: rest else toLowerByte b :: lowerCaseString rest

/-- Little-endian 16-bit word read at index `i` of a byte buffer, as
done by the C casts of `&msg->body.data[i]` to `uint16_t*`. -/
def wordAt (l : List Nat) (i : Nat) : Nat := l.getD i 0 + 256 * l.getD (i + 1) 0

/-- The two little-endian bytes of a 16-bit word. -/
def word16Bytes (w : Nat) : List Nat := [w % 256, w / 256 % 256]

/-- Flatten a list of 16-bit words into little-endian bytes. -/
def wordsToBytes (ws : List Nat) : List Nat := ws.flatMap word16Bytes

/-- Write the bytes of `bs` into the byte-addressed buffer `buf`
starting at `off` (the semantics of a C `memcpy` into a large
buffer). -/
def writeBytes (buf : Nat → Nat) (off : Nat) : List Nat → (Nat → Nat)
  | [] => buf
  | b :: rest => writeBytes (Function.update buf off b) (off + 1) rest

/-- Splice the bytes of `src` into the list `dst` starting at index
`off` (C `memcpy` into a stack buffer). -/
def spliceList (dst : List Nat) (off : Nat) (src : List Nat) : List Nat :=
  dst.take off ++ src ++ dst.drop (off + src.length)

/-- Modelled from the spec: `pageNumberFromAddress` of `node_mgmt.h`
(missing from src): a node address packs the page in the high 13 bits. -/
def pageNumberFromAddress (a : Nat) : Nat := a % 65536 / 8

/-- Modelled from the spec: `nodeNumberFromAddress` of `node_mgmt.h`
(missing from src): slot-within-page in the low 3 bits. -/
def nodeNumberFromAddress (a : Nat) : Nat := a % 8

/-- Modelled from the spec: `userIdToFlags` of `node_mgmt.h` (missing
from src): stamp the owning user id into the user-id bit-field (bits
4..7) of a node flags word. -/
def userIdToFlags (w uid : Nat) : Nat := (w % 65536) &&& 0xFF0F ||| (uid % 16) <<< 4

/-! Event trace: one constructor per side-effecting collaborator call
or I/O made by `usbProcessIncoming`, in program order. -/

set_option maxHeartbeats 2000000 in
/-- One observable side effect of the command parser: a USB send, a
GUI call, a node-management mutation, a flash or eeprom access, or a
timer primitive. -/
inductive Event where
  | usbSendMessage (cmd len : Nat) (payload : List Nat)
  | usbHidSend (ep : Nat) (bytes : List Nat) (len : Nat)
  | populateServicesLut
  | scanNodeUsage
  | activityDetectedRoutine
  | guiSetCurrentScreen (s : Nat)
  | guiGetBackToCurrentScreen
  | guiAskForConfirmation (id : Nat)
  | setCurrentContext (name : List Nat) (svcType : Nat)
  | addNewContext (name : List Nat) (len svcType : Nat)
  | setLoginForContext (d : List Nat) (len : Nat)
  | setPasswordForContext (d : List Nat) (len : Nat)
  | checkPasswordForContext (d : List Nat)
  | addDataForDataContext (block : List Nat) (flagByte : Nat)
  | readNode (addr : Nat)
  | setFav (slot paddr caddr : Nat)
  | readFav (slot : Nat)
  | setStartingParent (addr : Nat)
  | setDataStartingParent (addr : Nat)
  | setProfileCtr (v : List Nat)
  | writeSmartCardCPZForUserId (cpz ctr : List Nat) (uid : Nat)
  | outputLUTEntriesForGivenUser (uid : Nat)
  | findFreeNodes (maxCount page node : Nat)
  | loadPageToInternalBuffer (page : Nat)
  | flashWriteBuffer (bytes : List Nat) (off len : Nat)
  | flashWriteBufferToPage (page : Nat)
  | activateTimer (id ms : Nat)
  | waitTimerExpired (id : Nat)
  | memcmpRun
  | zeroizeBuffer (n : Nat)
  | eepromReadBlock (addr len : Nat)
  | eepromWriteBlock (addr : Nat) (bytes : List Nat)
  | eepromWriteByte (addr b : Nat)
  | eepromWriteWord (addr w : Nat)
  | userViewDelay
  | removeCardAndReAuthUser
  | guiCardUnlockingProcess
  | eraseSmartCard
  | readCodeProtectedZone
  | readAES256BitsKey
  | addNewUserForExistingCard (ctr : List Nat)
  | initUserFlashContext (uid : Nat)
  | initEncryptionHandling
  | setSmartCardInsertedUnlocked
  | readMooltipassWebsiteLogin
  | readMooltipassWebsitePassword
  | readApplicationZone1
  | readApplicationZone2
  | eraseApplicationZone1NZone2SMC (zone1 : Bool)
  | writeApplicationZone1 (d : List Nat)
  | writeApplicationZone2 (d : List Nat)
  | fillArrayWithRandomBytes (n : Nat)
  | setCurrentDate (d : Nat)
  | setMooltipassParameterInEeprom (p v : Nat)
  | cardDetectedRoutine
  | validCardDetectedFunction
  | systemResetViaWatchdog
  deriving Repr

/-- `checkTextField` from usb_cmd_parser.c: validate an advertised text
length against the true string length, the field maximum and the
transport maximum; on success, service-name payloads (recognized by
their maximum length) are lower-cased in place.  Returns the C return
code as a `Bool` (`RETURN_OK` = `true`) together with the possibly
lower-cased data. -/
def checkTextField (data : List Nat) (len max_len : Nat) : Bool × List Nat :=
  if len > max_len ∨ len = 0 ∨ len ≠ strlenL data + 1 ∨
      len > RAWHID_RX_SIZE - HID_DATA_START then
    (false, data)
  else
    if max_len = NODE_PARENT_SIZE_OF_SERVICE then
      (true, lowerCaseString data)
    else
      (true, data)

/-- `checkMooltipassPassword` from usb_cmd_parser.c: read the stored
password from eeprom, start the 1000 ms credential timer, compare,
busy-wait until the timer has expired, zero the local password buffer,
and only then report the comparison result.  The second component is
the trace of primitive operations in program order. -/
def checkMooltipassPassword (eeprom : Nat → Nat) (data : List Nat) (addr len : Nat) :
    Bool × List Event :=
  let stored := (List.range len).map (fun i => eeprom (addr + i))
  let candidate := (List.range len).map (fun i => data.getD i 0)
  (decide (stored = candidate),
   [Event.eepromReadBlock addr len,
    Event.activateTimer TIMER_CREDENTIALS 1000,
    Event.memcmpRun,
    Event.waitTimerExpired TIMER_CREDENTIALS,
    Event.zeroizeBuffer PACKET_EXPORT_SIZE])

/-- An incoming USB message: the 1-byte declared length `len`, the
1-byte command `cmd`, and the data area (`RAWHID` transfer minus the
2-byte header).  `len` is attacker-controlled and may exceed the data
area. -/
structure UsbMsg where
  len : Nat
  cmd : Nat
  data : List Nat

/-- The mutable state touched by usb_cmd_parser.c: its five file-scope
globals, the current screen (set through `guiSetCurrentScreen`), the
flash chip's internal page buffer (written by `flashWriteBuffer`,
loaded by `loadPageToInternalBuffer`, flushed by
`flashWriteBufferToPage`), the flash pages and the eeprom. -/
structure DeviceState where
  memoryManagementModeApproved : Bool
  mediaFlashImportApproved : Bool
  currentNodeWritten : Nat
  mediaFlashImportPage : Nat
  mediaFlashImportOffset : Nat
  currentScreen : Nat
  internalBuffer : Nat → Nat
  flashPages : Nat → Nat → Nat
  eeprom : Nat → Nat

/-- Read-only oracles for the collaborator calls made by the parser:
predicates of the session/card state and the results returned by the
context resolver, node store, GUI and smartcard layers. -/
structure Env where
  isSmartCardAbsent : Bool
  smartCardUnlocked : Bool
  confirmationOk : Nat → Bool
  removeCardAndReAuthOk : Bool
  setCurrentContextOk : List Nat → Nat → Bool
  addNewContextOk : List Nat → Nat → Nat → Bool
  getLoginForContext : Option (List Nat)
  getPasswordForContext : Option (List Nat)
  getDescriptionForContext : Option (List Nat)
  setLoginOk : List Nat → Nat → Bool
  setPasswordOk : List Nat → Nat → Bool
  checkPasswordResult : List Nat → Nat
  addDataOk : List Nat → Nat → Bool
  get32BytesData : Option (List Nat)
  checkUserPermission : Nat → Bool
  getStartingParentAddress : Nat
  getStartingDataParentAddress : Nat
  findFreeNodesResult : List Nat
  getCurrentUserID : Nat
  writeSmartCardCPZOk : Bool
  getMooltipassParameter : Nat → Nat
  guiCardUnlockingOk : Bool
  cardDetectedMooltipassUser : Bool
  validCardDetectedOk : Bool
  cpzBuffer : List Nat
  addNewUserOk : Bool
  newUserId : Nat
  websiteLogin : List Nat
  websitePassword : List Nat
  appZone1 : List Nat
  appZone2 : List Nat
  randomBytes : List Nat
  nodeContent : Nat → List Nat
  readFavResult : Nat → Nat × Nat
  profileCtr : List Nat

/-- The common trailer of the switch: answer with a single status byte
echoing the original command id. -/
def sendPRV (cmd prv : Nat) : Event := Event.usbSendMessage cmd 1 [prv]

/-- The in-place `userIdToFlags((uint16_t*)&data[3], uid)` of the
`CMD_WRITE_FLASH_NODE` first packet: stamp the current user id into the
little-endian flags word held at bytes 3 and 4 of the packet data. -/
def stampUserIdFlags (uid : Nat) (data : List Nat) : List Nat :=
  let w := userIdToFlags (wordAt data 3) uid
  (data.set 3 (w % 256)).set 4 (w / 256 % 256)

/-- `CMD_CONTEXT` case: refresh the services LUT when in memory
management mode, then resolve the credential context if the card is
unlocked. -/
def handleContext (env : Env) (st : DeviceState) (data : List Nat) :
    DeviceState × List Event :=
  let lutEvents := if st.memoryManagementModeApproved = true then
      [Event.populateServicesLut] else []
  if env.smartCardUnlocked ≠ true then
    (st, lutEvents ++ [sendPRV CMD_CONTEXT PLUGIN_BYTE_NOCARD])
  else if env.setCurrentContextOk data SERVICE_CRED_TYPE then
    (st, lutEvents ++ [Event.setCurrentContext data SERVICE_CRED_TYPE,
                       sendPRV CMD_CONTEXT PLUGIN_BYTE_OK])
  else
    (st, lutEvents ++ [Event.setCurrentContext data SERVICE_CRED_TYPE,
                       sendPRV CMD_CONTEXT PLUGIN_BYTE_ERROR])

/-- `CMD_SET_DATA_SERVICE` case: resolve the data context if the card
is unlocked. -/
def handleSetDataService (env : Env) (st : DeviceState) (data : List Nat) :
    DeviceState × List Event :=
  if env.smartCardUnlocked ≠ true then
    (st, [sendPRV CMD_SET_DATA_SERVICE PLUGIN_BYTE_NOCARD])
  else if env.setCurrentContextOk data SERVICE_DATA_TYPE then
    (st, [Event.setCurrentContext data SERVICE_DATA_TYPE,
          sendPRV CMD_SET_DATA_SERVICE PLUGIN_BYTE_OK])
  else
    (st, [Event.setCurrentContext data SERVICE_DATA_TYPE,
          sendPRV CMD_SET_DATA_SERVICE PLUGIN_BYTE_ERROR])

/-- `CMD_GET_LOGIN` case: send the login directly, or the error byte. -/
def handleGetLogin (env : Env) (st : DeviceState) : DeviceState × List Event :=
  match env.getLoginForContext with
  | some l => (st, [Event.usbSendMessage CMD_GET_LOGIN (strlenL l + 1) l])
  | none => (st, [sendPRV CMD_GET_LOGIN PLUGIN_BYTE_ERROR])

/-- `CMD_GET_PASSWORD` case. -/
def handleGetPassword (env : Env) (st : DeviceState) : DeviceState × List Event :=
  match env.getPasswordForContext with
  | some l => (st, [Event.usbSendMessage CMD_GET_PASSWORD (strlenL l + 1) l])
  | none => (st, [sendPRV CMD_GET_PASSWORD PLUGIN_BYTE_ERROR])

/-- `CMD_GET_DESCRIPTION` case. -/
def handleGetDescription (env : Env) (st : DeviceState) : DeviceState × List Event :=
  match env.getDescriptionForContext with
  | some l => (st, [Event.usbSendMessage CMD_GET_DESCRIPTION (strlenL l + 1) l])
  | none => (st, [sendPRV CMD_GET_DESCRIPTION PLUGIN_BYTE_ERROR])

/-- `CMD_SET_LOGIN` case. -/
def handleSetLogin (env : Env) (st : DeviceState) (datalen : Nat) (data : List Nat) :
    DeviceState × List Event :=
  (st, [Event.setLoginForContext data datalen,
        sendPRV CMD_SET_LOGIN
          (if env.setLoginOk data datalen then PLUGIN_BYTE_OK else PLUGIN_BYTE_ERROR)])

/-- `CMD_SET_PASSWORD` case. -/
def handleSetPassword (env : Env) (st : DeviceState) (datalen : Nat) (data : List Nat) :
    DeviceState × List Event :=
  (st, [Event.setPasswordForContext data datalen,
        sendPRV CMD_SET_PASSWORD
          (if env.setPasswordOk data datalen then PLUGIN_BYTE_OK else PLUGIN_BYTE_ERROR)])

/-- `CMD_CHECK_PASSWORD` case: fold the three-way check result to
{ERROR, OK, NA}. -/
def handleCheckPassword (env : Env) (st : DeviceState) (data : List Nat) :
    DeviceState × List Event :=
  let r := env.checkPasswordResult data
  (st, [Event.checkPasswordForContext data,
        sendPRV CMD_CHECK_PASSWORD
          (if r = RETURN_PASS_CHECK_NOK then PLUGIN_BYTE_ERROR
           else if r = RETURN_PASS_CHECK_OK then PLUGIN_BYTE_OK
           else PLUGIN_BYTE_NA)])

/-- `CMD_ADD_CONTEXT` case. -/
def handleAddContext (env : Env) (st : DeviceState) (datalen : Nat) (data : List Nat) :
    DeviceState × List Event :=
  (st, [Event.addNewContext data datalen SERVICE_CRED_TYPE,
        sendPRV CMD_ADD_CONTEXT
          (if env.addNewContextOk data datalen SERVICE_CRED_TYPE then
             PLUGIN_BYTE_OK else PLUGIN_BYTE_ERROR)])

/-- `CMD_ADD_DATA_SERVICE` case. -/
def handleAddDataService (env : Env) (st : DeviceState) (datalen : Nat) (data : List Nat) :
    DeviceState × List Event :=
  (st, [Event.addNewContext data datalen SERVICE_DATA_TYPE,
        sendPRV CMD_ADD_DATA_SERVICE
          (if env.addNewContextOk data datalen SERVICE_DATA_TYPE then
             PLUGIN_BYTE_OK else PLUGIN_BYTE_ERROR)])

/-- `CMD_WRITE_32B_IN_DN` case.  The C condition is
`(addDataForDataContext(&data[1], data[0]) == RETURN_OK) && (datalen == 1+DATA_NODE_BLOCK_SIZ)`:
the left operand of `&&` is evaluated first, so the node-store call runs
before the declared length is checked. -/
def handleWrite32BInDN (env : Env) (st : DeviceState) (datalen : Nat) (data : List Nat) :
    DeviceState × List Event :=
  let block := (data.drop 1).take DATA_NODE_BLOCK_SIZ
  let flagByte := data.getD 0 0
  (st, [Event.addDataForDataContext block flagByte,
        sendPRV CMD_WRITE_32B_IN_DN
          (if env.addDataOk block flagByte ∧ datalen = 1 + DATA_NODE_BLOCK_SIZ then
             PLUGIN_BYTE_OK else PLUGIN_BYTE_ERROR)])

/-- `CMD_READ_32B_IN_DN` case. -/
def handleRead32BInDN (env : Env) (st : DeviceState) : DeviceState × List Event :=
  match env.get32BytesData with
  | some l => (st, [Event.usbSendMessage CMD_READ_32B_IN_DN DATA_NODE_BLOCK_SIZ l])
  | none => (st, [sendPRV CMD_READ_32B_IN_DN PLUGIN_BYTE_ERROR])

/-- `CMD_START_MEMORYMGMT` case: unlocked card, user confirmation
(message slot `0xF0 | 1`), then card removal and PIN re-entry before
granting the privileged flag. -/
def handleStartMemoryMgmt (env : Env) (st : DeviceState) : DeviceState × List Event :=
  if env.smartCardUnlocked = true then
    if env.confirmationOk 0xF1 then
      if env.removeCardAndReAuthOk then
        ({st with currentScreen := SCREEN_MEMORY_MGMT,
                  memoryManagementModeApproved := true},
         [Event.guiAskForConfirmation 0xF1, Event.removeCardAndReAuthUser,
          Event.guiSetCurrentScreen SCREEN_MEMORY_MGMT,
          Event.guiGetBackToCurrentScreen,
          sendPRV CMD_START_MEMORYMGMT PLUGIN_BYTE_OK])
      else
        ({st with currentScreen := SCREEN_DEFAULT_INSERTED_LCK},
         [Event.guiAskForConfirmation 0xF1, Event.removeCardAndReAuthUser,
          Event.guiSetCurrentScreen SCREEN_DEFAULT_INSERTED_LCK,
          Event.guiGetBackToCurrentScreen,
          sendPRV CMD_START_MEMORYMGMT PLUGIN_BYTE_ERROR])
    else
      (st, [Event.guiAskForConfirmation 0xF1, Event.guiGetBackToCurrentScreen,
            sendPRV CMD_START_MEMORYMGMT PLUGIN_BYTE_ERROR])
  else
    (st, [sendPRV CMD_START_MEMORYMGMT PLUGIN_BYTE_ERROR])

/-- `CMD_GET_STARTING_PARENT` case. -/
def handleGetStartingParent (env : Env) (st : DeviceState) : DeviceState × List Event :=
  (st, [Event.usbSendMessage CMD_GET_STARTING_PARENT 2
          (word16Bytes env.getStartingParentAddress)])

/-- `CMD_GET_DN_START_PARENT` case. -/
def handleGetDnStartParent (env : Env) (st : DeviceState) : DeviceState × List Event :=
  (st, [Event.usbSendMessage CMD_GET_DN_START_PARENT 2
          (word16Bytes env.getStartingDataParentAddress)])

/-- `CMD_GET_FREE_SLOTS_ADDR` case: scan for up to 31 free node
addresses from the supplied cursor. -/
def handleGetFreeSlotsAddr (env : Env) (st : DeviceState) (datalen : Nat) (data : List Nat) :
    DeviceState × List Event :=
  if datalen = 2 then
    let a := wordAt data 0
    let found := env.findFreeNodesResult.take 31
    (st, [Event.findFreeNodes 31 (pageNumberFromAddress a) (nodeNumberFromAddress a),
          Event.usbSendMessage CMD_GET_FREE_SLOTS_ADDR (found.length * 2) (wordsToBytes found)])
  else
    (st, [sendPRV CMD_GET_FREE_SLOTS_ADDR PLUGIN_BYTE_ERROR])

/-- `CMD_END_MEMORYMGMT` case: clear the privileged flag, invalidate
the in-flight node write, refresh LUT and node-usage scan, then answer
OK. -/
def handleEndMemoryMgmt (st : DeviceState) : DeviceState × List Event :=
  ({st with currentScreen := SCREEN_DEFAULT_INSERTED_NLCK,
            currentNodeWritten := NODE_ADDR_NULL,
            memoryManagementModeApproved := false},
   [Event.guiSetCurrentScreen SCREEN_DEFAULT_INSERTED_NLCK,
    Event.guiGetBackToCurrentScreen,
    Event.activityDetectedRoutine,
    Event.populateServicesLut,
    Event.scanNodeUsage,
    sendPRV CMD_END_MEMORYMGMT PLUGIN_BYTE_OK])

/-- `CMD_READ_FLASH_NODE` case: ownership-checked node read. -/
def handleReadFlashNode (env : Env) (st : DeviceState) (datalen : Nat) (data : List Nat) :
    DeviceState × List Event :=
  if datalen = 2 then
    let a := wordAt data 0
    if env.checkUserPermission a then
      (st, [Event.readNode a,
            Event.usbSendMessage CMD_READ_FLASH_NODE NODE_SIZE (env.nodeContent a)])
    else
      (st, [sendPRV CMD_READ_FLASH_NODE PLUGIN_BYTE_ERROR])
  else
    (st, [sendPRV CMD_READ_FLASH_NODE PLUGIN_BYTE_ERROR])

/-- `CMD_SET_FAVORITE` case: only the declared length is validated; the
slot byte is handed to `setFav` unchecked. -/
def handleSetFavorite (st : DeviceState) (datalen : Nat) (data : List Nat) :
    DeviceState × List Event :=
  if datalen = 5 then
    (st, [Event.setFav (data.getD 0 0) (wordAt data 1) (wordAt data 3),
          sendPRV CMD_SET_FAVORITE PLUGIN_BYTE_OK])
  else
    (st, [sendPRV CMD_SET_FAVORITE PLUGIN_BYTE_ERROR])

/-- `CMD_GET_FAVORITE` case: only the declared length is validated; the
slot byte is handed to `readFav` unchecked. -/
def handleGetFavorite (env : Env) (st : DeviceState) (datalen : Nat) (data : List Nat) :
    DeviceState × List Event :=
  if datalen = 1 then
    let pc := env.readFavResult (data.getD 0 0)
    (st, [Event.readFav (data.getD 0 0),
          Event.usbSendMessage CMD_GET_FAVORITE 4
            (word16Bytes pc.1 ++ word16Bytes pc.2)])
  else
    (st, [sendPRV CMD_GET_FAVORITE PLUGIN_BYTE_ERROR])

/-- `CMD_SET_STARTING_PARENT` case. -/
def handleSetStartingParent (st : DeviceState) (datalen : Nat) (data : List Nat) :
    DeviceState × List Event :=
  if datalen = 2 then
    (st, [Event.setStartingParent (wordAt data 0),
          sendPRV CMD_SET_STARTING_PARENT PLUGIN_BYTE_OK])
  else
    (st, [sendPRV CMD_SET_STARTING_PARENT PLUGIN_BYTE_ERROR])

/-- `CMD_SET_DN_START_PARENT` case. -/
def handleSetDnStartParent (st : DeviceState) (datalen : Nat) (data : List Nat) :
    DeviceState × List Event :=
  if datalen = 2 then
    (st, [Event.setDataStartingParent (wordAt data 0),
          sendPRV CMD_SET_DN_START_PARENT PLUGIN_BYTE_OK])
  else
    (st, [sendPRV CMD_SET_DN_START_PARENT PLUGIN_BYTE_ERROR])

/-- `CMD_SET_CTRVALUE` case. -/
def handleSetCtrValue (st : DeviceState) (datalen : Nat) (data : List Nat) :
    DeviceState × List Event :=
  if datalen = USER_CTR_SIZE then
    (st, [Event.setProfileCtr (data.take USER_CTR_SIZE),
          sendPRV CMD_SET_CTRVALUE PLUGIN_BYTE_OK])
  else
    (st, [sendPRV CMD_SET_CTRVALUE PLUGIN_BYTE_ERROR])

/-- `CMD_GET_CTRVALUE` case. -/
def handleGetCtrValue (env : Env) (st : DeviceState) : DeviceState × List Event :=
  (st, [Event.usbSendMessage CMD_GET_CTRVALUE USER_CTR_SIZE env.profileCtr])

/-- `CMD_ADD_CARD_CPZ_CTR` case. -/
def handleAddCardCpzCtr (env : Env) (st : DeviceState) (datalen : Nat) (data : List Nat) :
    DeviceState × List Event :=
  if datalen = SMARTCARD_CPZ_LENGTH + AES256_CTR_LENGTH then
    (st, [Event.writeSmartCardCPZForUserId (data.take SMARTCARD_CPZ_LENGTH)
            ((data.drop SMARTCARD_CPZ_LENGTH).take AES256_CTR_LENGTH) env.getCurrentUserID,
          sendPRV CMD_ADD_CARD_CPZ_CTR
            (if env.writeSmartCardCPZOk then PLUGIN_BYTE_OK else PLUGIN_BYTE_ERROR)])
  else
    (st, [sendPRV CMD_ADD_CARD_CPZ_CTR PLUGIN_BYTE_ERROR])

/-- `CMD_GET_CARD_CPZ_CTR` case. -/
def handleGetCardCpzCtr (env : Env) (st : DeviceState) : DeviceState × List Event :=
  (st, [Event.outputLUTEntriesForGivenUser env.getCurrentUserID,
        sendPRV CMD_GET_CARD_CPZ_CTR PLUGIN_BYTE_OK])

/-- `CMD_WRITE_FLASH_NODE` case: the stateful multi-packet node write.
Sub-index-0 packets passing the ownership check re-target
`currentNodeWritten` and load the target's flash page into the internal
buffer; a packet is accepted when its address equals the current
target, the target is non-null and the cumulative offset stays within
`NODE_SIZE`; sub-index-0 packets stamp the user id into the node flags
word; the sub-index equal to `NODE_SIZE / (PACKET_EXPORT_SIZE-3)`
flushes the buffer to the page.  Bytes addressed past the received data
area (possible because `datalen` is attacker-controlled) read as
absent. -/
def handleWriteFlashNode (env : Env) (st : DeviceState) (datalen : Nat) (data : List Nat) :
    DeviceState × List Event :=
  let a := wordAt data 0
  if datalen < 3 then
    (st, [sendPRV CMD_WRITE_FLASH_NODE PLUGIN_BYTE_ERROR])
  else
    let subidx := data.getD 2 0
    let staged :=
      if subidx = 0 ∧ env.checkUserPermission a = true then
        ({st with currentNodeWritten := a,
                  internalBuffer := fun i => st.flashPages (pageNumberFromAddress a) i},
         [Event.loadPageToInternalBuffer (pageNumberFromAddress a)])
      else (st, ([] : List Event))
    let st1 := staged.1
    if st1.currentNodeWritten = a ∧ st1.currentNodeWritten ≠ NODE_ADDR_NULL ∧
        subidx * (PACKET_EXPORT_SIZE - 3) + (datalen - 3) ≤ NODE_SIZE then
      let stamped := if subidx = 0 then stampUserIdFlags env.getCurrentUserID data else data
      let chunk := (stamped.drop 3).take (datalen - 3)
      let off := NODE_SIZE * nodeNumberFromAddress st1.currentNodeWritten +
                 subidx * (PACKET_EXPORT_SIZE - 3)
      let st2 := {st1 with internalBuffer := writeBytes st1.internalBuffer off chunk}
      if subidx = NODE_SIZE / (PACKET_EXPORT_SIZE - 3) then
        ({st2 with flashPages := Function.update st2.flashPages
                     (pageNumberFromAddress st2.currentNodeWritten) st2.internalBuffer},
         staged.2 ++ [Event.flashWriteBuffer chunk off (datalen - 3),
                      Event.flashWriteBufferToPage (pageNumberFromAddress st2.currentNodeWritten),
                      sendPRV CMD_WRITE_FLASH_NODE PLUGIN_BYTE_OK])
      else
        (st2, staged.2 ++ [Event.flashWriteBuffer chunk off (datalen - 3),
                           sendPRV CMD_WRITE_FLASH_NODE PLUGIN_BYTE_OK])
    else
      (st1, staged.2 ++ [sendPRV CMD_WRITE_FLASH_NODE PLUGIN_BYTE_ERROR])

/-- `CMD_IMPORT_MEDIA_START` case (build without `DEV_PLUGIN_COMMS`):
reset the import cursor, mandatory anti-bruteforce delay, then approve
if the bootloader password is unset, or after a user confirmation plus
a timed password check. -/
def handleImportMediaStart (env : Env) (st : DeviceState) (datalen : Nat) (data : List Nat) :
    DeviceState × List Event :=
  let st0 := {st with mediaFlashImportPage := GRAPHIC_ZONE_PAGE_START,
                      mediaFlashImportOffset := 0}
  if datalen = PACKET_EXPORT_SIZE then
    if st0.eeprom EEP_BOOT_PWD_SET ≠ BOOTLOADER_PWDOK_KEY then
      ({st0 with mediaFlashImportApproved := true},
       [Event.userViewDelay, Event.guiGetBackToCurrentScreen,
        sendPRV CMD_IMPORT_MEDIA_START PLUGIN_BYTE_OK])
    else if env.confirmationOk 2 then
      let pw := checkMooltipassPassword st0.eeprom data EEP_BOOT_PWD PACKET_EXPORT_SIZE
      if pw.1 then
        ({st0 with mediaFlashImportApproved := true},
         [Event.userViewDelay, Event.guiAskForConfirmation 2] ++ pw.2 ++
         [Event.guiGetBackToCurrentScreen, sendPRV CMD_IMPORT_MEDIA_START PLUGIN_BYTE_OK])
      else
        (st0, [Event.userViewDelay, Event.guiAskForConfirmation 2] ++ pw.2 ++
              [Event.guiGetBackToCurrentScreen, sendPRV CMD_IMPORT_MEDIA_START PLUGIN_BYTE_ERROR])
    else
      (st0, [Event.userViewDelay, Event.guiAskForConfirmation 2,
             Event.guiGetBackToCurrentScreen, sendPRV CMD_IMPORT_MEDIA_START PLUGIN_BYTE_ERROR])
  else
    (st0, [Event.userViewDelay, sendPRV CMD_IMPORT_MEDIA_START PLUGIN_BYTE_ERROR])

/-- `CMD_IMPORT_MEDIA` case: bounds-checked streaming write into the
internal buffer, flushed on each full page. -/
def handleImportMedia (st : DeviceState) (datalen : Nat) (data : List Nat) :
    DeviceState × List Event :=
  if st.mediaFlashImportApproved = false ∨ st.mediaFlashImportPage ≥ GRAPHIC_ZONE_PAGE_END ∨
      st.mediaFlashImportOffset + datalen > BYTES_PER_PAGE then
    ({st with mediaFlashImportApproved := false},
     [sendPRV CMD_IMPORT_MEDIA PLUGIN_BYTE_ERROR])
  else
    let chunk := data.take datalen
    let st1 := {st with internalBuffer := writeBytes st.internalBuffer st.mediaFlashImportOffset chunk,
                        mediaFlashImportOffset := st.mediaFlashImportOffset + datalen}
    if st1.mediaFlashImportOffset = BYTES_PER_PAGE then
      ({st1 with flashPages := Function.update st1.flashPages st.mediaFlashImportPage st1.internalBuffer,
                 mediaFlashImportOffset := 0,
                 mediaFlashImportPage := st.mediaFlashImportPage + 1},
       [Event.flashWriteBuffer chunk st.mediaFlashImportOffset datalen,
        Event.flashWriteBufferToPage st.mediaFlashImportPage,
        sendPRV CMD_IMPORT_MEDIA PLUGIN_BYTE_OK])
    else
      (st1, [Event.flashWriteBuffer chunk st.mediaFlashImportOffset datalen,
             sendPRV CMD_IMPORT_MEDIA PLUGIN_BYTE_OK])

/-- `CMD_IMPORT_MEDIA_END` case (build without
`MINI_PREPRODUCTION_SETUP`). -/
def handleImportMediaEnd (st : DeviceState) : DeviceState × List Event :=
  if st.mediaFlashImportApproved = true ∧ st.mediaFlashImportOffset ≠ 0 then
    ({st with flashPages := Function.update st.flashPages st.mediaFlashImportPage st.internalBuffer,
              mediaFlashImportApproved := false},
     [Event.flashWriteBufferToPage st.mediaFlashImportPage,
      sendPRV CMD_IMPORT_MEDIA_END PLUGIN_BYTE_OK])
  else
    ({st with mediaFlashImportApproved := false},
     [sendPRV CMD_IMPORT_MEDIA_END PLUGIN_BYTE_OK])

/-- `CMD_SET_MOOLTIPASS_PARM` case (cached parameter refreshes are
reads). -/
def handleSetMooltipassParm (st : DeviceState) (datalen : Nat) (data : List Nat) :
    DeviceState × List Event :=
  if datalen = 2 then
    (st, [Event.setMooltipassParameterInEeprom (data.getD 0 0) (data.getD 1 0),
          sendPRV CMD_SET_MOOLTIPASS_PARM PLUGIN_BYTE_OK])
  else
    (st, [sendPRV CMD_SET_MOOLTIPASS_PARM PLUGIN_BYTE_ERROR])

/-- `CMD_GET_MOOLTIPASS_PARM` case: the parameter value itself is the
response byte. -/
def handleGetMooltipassParm (env : Env) (st : DeviceState) (data : List Nat) :
    DeviceState × List Event :=
  (st, [sendPRV CMD_GET_MOOLTIPASS_PARM (env.getMooltipassParameter (data.getD 0 0))])

/-- `CMD_GET_CUR_CARD_CPZ` case. -/
def handleGetCurCardCpz (env : Env) (st : DeviceState) : DeviceState × List Event :=
  if st.currentScreen = SCREEN_DEFAULT_INSERTED_UNKNOWN ∨ env.smartCardUnlocked = true then
    (st, [Event.readCodeProtectedZone,
          Event.usbSendMessage CMD_GET_CUR_CARD_CPZ SMARTCARD_CPZ_LENGTH env.cpzBuffer])
  else
    (st, [sendPRV CMD_GET_CUR_CARD_CPZ PLUGIN_BYTE_ERROR])

/-- `CMD_RESET_CARD` case. -/
def handleResetCard (env : Env) (st : DeviceState) : DeviceState × List Event :=
  if st.currentScreen = SCREEN_DEFAULT_INSERTED_UNKNOWN then
    if env.guiCardUnlockingOk then
      ({st with currentScreen := SCREEN_DEFAULT_INSERTED_INVALID},
       [Event.activityDetectedRoutine, Event.guiCardUnlockingProcess,
        Event.eraseSmartCard,
        Event.guiSetCurrentScreen SCREEN_DEFAULT_INSERTED_INVALID,
        Event.guiGetBackToCurrentScreen,
        sendPRV CMD_RESET_CARD PLUGIN_BYTE_OK])
    else
      (st, [Event.activityDetectedRoutine, Event.guiCardUnlockingProcess,
            Event.guiGetBackToCurrentScreen,
            sendPRV CMD_RESET_CARD PLUGIN_BYTE_ERROR])
  else
    (st, [sendPRV CMD_RESET_CARD PLUGIN_BYTE_ERROR])

/-- `CMD_UNLOCK_WITH_PIN` case, with the C `&&` short-circuit order:
length and screen checks, card detection, user confirmation, then PIN
validation; the screen is restored on every path. -/
def handleUnlockWithPin (env : Env) (st : DeviceState) (datalen : Nat) :
    DeviceState × List Event :=
  if datalen = 2 ∧ st.currentScreen = SCREEN_DEFAULT_INSERTED_LCK then
    if env.cardDetectedMooltipassUser then
      if env.confirmationOk 1 then
        if env.validCardDetectedOk then
          ({st with currentScreen := SCREEN_DEFAULT_INSERTED_NLCK},
           [Event.cardDetectedRoutine, Event.guiAskForConfirmation 1,
            Event.validCardDetectedFunction,
            Event.guiSetCurrentScreen SCREEN_DEFAULT_INSERTED_NLCK,
            Event.guiGetBackToCurrentScreen,
            sendPRV CMD_UNLOCK_WITH_PIN PLUGIN_BYTE_OK])
        else
          (st, [Event.cardDetectedRoutine, Event.guiAskForConfirmation 1,
                Event.validCardDetectedFunction, Event.guiGetBackToCurrentScreen,
                sendPRV CMD_UNLOCK_WITH_PIN PLUGIN_BYTE_ERROR])
      else
        (st, [Event.cardDetectedRoutine, Event.guiAskForConfirmation 1,
              Event.guiGetBackToCurrentScreen,
              sendPRV CMD_UNLOCK_WITH_PIN PLUGIN_BYTE_ERROR])
    else
      (st, [Event.cardDetectedRoutine, Event.guiGetBackToCurrentScreen,
            sendPRV CMD_UNLOCK_WITH_PIN PLUGIN_BYTE_ERROR])
  else
    (st, [Event.guiGetBackToCurrentScreen,
          sendPRV CMD_UNLOCK_WITH_PIN PLUGIN_BYTE_ERROR])

/-- `CMD_ADD_UNKNOWN_CARD` case. -/
def handleAddUnknownCard (env : Env) (st : DeviceState) (datalen : Nat) (data : List Nat) :
    DeviceState × List Event :=
  if datalen = SMARTCARD_CPZ_LENGTH + AES256_CTR_LENGTH ∧
      st.currentScreen = SCREEN_DEFAULT_INSERTED_UNKNOWN then
    let ctr := (data.drop SMARTCARD_CPZ_LENGTH).take AES256_CTR_LENGTH
    if env.cpzBuffer.take SMARTCARD_CPZ_LENGTH = data.take SMARTCARD_CPZ_LENGTH then
      if env.guiCardUnlockingOk then
        if env.addNewUserOk then
          ({st with currentScreen := SCREEN_DEFAULT_INSERTED_NLCK},
           [Event.readCodeProtectedZone, Event.activityDetectedRoutine,
            Event.guiCardUnlockingProcess, Event.addNewUserForExistingCard ctr,
            Event.readAES256BitsKey, Event.initUserFlashContext env.newUserId,
            Event.initEncryptionHandling, Event.setSmartCardInsertedUnlocked,
            Event.guiSetCurrentScreen SCREEN_DEFAULT_INSERTED_NLCK,
            Event.guiGetBackToCurrentScreen,
            sendPRV CMD_ADD_UNKNOWN_CARD PLUGIN_BYTE_OK])
        else
          (st, [Event.readCodeProtectedZone, Event.activityDetectedRoutine,
                Event.guiCardUnlockingProcess, Event.addNewUserForExistingCard ctr,
                Event.guiGetBackToCurrentScreen,
                sendPRV CMD_ADD_UNKNOWN_CARD PLUGIN_BYTE_ERROR])
      else
        (st, [Event.readCodeProtectedZone, Event.activityDetectedRoutine,
              Event.guiCardUnlockingProcess, Event.guiGetBackToCurrentScreen,
              sendPRV CMD_ADD_UNKNOWN_CARD PLUGIN_BYTE_ERROR])
    else
      (st, [Event.readCodeProtectedZone, Event.activityDetectedRoutine,
            Event.guiGetBackToCurrentScreen,
            sendPRV CMD_ADD_UNKNOWN_CARD PLUGIN_BYTE_ERROR])
  else
    (st, [sendPRV CMD_ADD_UNKNOWN_CARD PLUGIN_BYTE_ERROR])

/-- `CMD_READ_CARD_LOGIN` case. -/
def handleReadCardLogin (env : Env) (st : DeviceState) : DeviceState × List Event :=
  if env.smartCardUnlocked = true then
    (st, [Event.readMooltipassWebsiteLogin,
          Event.usbSendMessage CMD_READ_CARD_LOGIN (SMARTCARD_MTP_LOGIN_LENGTH / 8)
            env.websiteLogin])
  else
    (st, [sendPRV CMD_READ_CARD_LOGIN PLUGIN_BYTE_ERROR])

/-- `CMD_READ_CARD_PASS` case. -/
def handleReadCardPass (env : Env) (st : DeviceState) : DeviceState × List Event :=
  if env.smartCardUnlocked = true then
    if env.confirmationOk 1 then
      (st, [Event.guiAskForConfirmation 1, Event.readMooltipassWebsitePassword,
            Event.usbSendMessage CMD_READ_CARD_PASS (SMARTCARD_MTP_PASS_LENGTH / 8)
              env.websitePassword,
            Event.guiGetBackToCurrentScreen])
    else
      (st, [Event.guiAskForConfirmation 1, Event.guiGetBackToCurrentScreen,
            sendPRV CMD_READ_CARD_PASS PLUGIN_BYTE_ERROR])
  else
    (st, [sendPRV CMD_READ_CARD_PASS PLUGIN_BYTE_ERROR])

/-- `CMD_SET_CARD_LOGIN` case: read zone 2, erase it, splice the new
login at its offset, write the zone back. -/
def handleSetCardLogin (env : Env) (st : DeviceState) (datalen : Nat) (data : List Nat) :
    DeviceState × List Event :=
  if env.smartCardUnlocked = true then
    if env.confirmationOk 1 then
      let az2 := spliceList env.appZone2 (SMARTCARD_MTP_LOGIN_OFFSET / 8) (data.take datalen)
      (st, [Event.guiAskForConfirmation 1, Event.readApplicationZone2,
            Event.eraseApplicationZone1NZone2SMC false,
            Event.writeApplicationZone2 az2,
            Event.guiGetBackToCurrentScreen,
            sendPRV CMD_SET_CARD_LOGIN PLUGIN_BYTE_OK])
    else
      (st, [Event.guiAskForConfirmation 1, Event.guiGetBackToCurrentScreen,
            sendPRV CMD_SET_CARD_LOGIN PLUGIN_BYTE_ERROR])
  else
    (st, [sendPRV CMD_SET_CARD_LOGIN PLUGIN_BYTE_ERROR])

/-- `CMD_SET_CARD_PASS` case. -/
def handleSetCardPass (env : Env) (st : DeviceState) (datalen : Nat) (data : List Nat) :
    DeviceState × List Event :=
  if env.smartCardUnlocked = true then
    if env.confirmationOk 1 then
      let az1 := spliceList env.appZone1 (SMARTCARD_MTP_PASS_OFFSET / 8) (data.take datalen)
      (st, [Event.guiAskForConfirmation 1, Event.readApplicationZone1,
            Event.eraseApplicationZone1NZone2SMC true,
            Event.writeApplicationZone1 az1,
            Event.guiGetBackToCurrentScreen,
            sendPRV CMD_SET_CARD_PASS PLUGIN_BYTE_OK])
    else
      (st, [Event.guiAskForConfirmation 1, Event.guiGetBackToCurrentScreen,
            sendPRV CMD_SET_CARD_PASS PLUGIN_BYTE_ERROR])
  else
    (st, [sendPRV CMD_SET_CARD_PASS PLUGIN_BYTE_ERROR])

/-- `CMD_GET_RANDOM_NUMBER` case. -/
def handleGetRandomNumber (env : Env) (st : DeviceState) : DeviceState × List Event :=
  (st, [Event.fillArrayWithRandomBytes 32,
        Event.usbSendMessage CMD_GET_RANDOM_NUMBER 32 (env.randomBytes.take 32)])

/-- `CMD_SET_DATE` case. -/
def handleSetDate (st : DeviceState) (data : List Nat) : DeviceState × List Event :=
  (st, [Event.setCurrentDate (wordAt data 0), sendPRV CMD_SET_DATE PLUGIN_BYTE_OK])

/-- `CMD_SET_UID` case (build without `POST_KICKSTARTER_UPDATE_SETUP`):
one-time provisioning guarded by the request-key-set sentinel. -/
def handleSetUid (st : DeviceState) (datalen : Nat) (data : List Nat) :
    DeviceState × List Event :=
  if datalen = UID_REQUEST_KEY_SIZE + UID_SIZE ∧
      st.eeprom EEP_UID_REQUEST_KEY_SET_ADDR ≠ UID_REQUEST_KEY_OK_KEY then
    let bytes := data.take (UID_REQUEST_KEY_SIZE + UID_SIZE)
    let ee := Function.update (writeBytes st.eeprom EEP_UID_REQUEST_KEY_ADDR bytes)
        EEP_UID_REQUEST_KEY_SET_ADDR UID_REQUEST_KEY_OK_KEY
    ({st with eeprom := ee},
     [Event.eepromWriteBlock EEP_UID_REQUEST_KEY_ADDR bytes,
      Event.eepromWriteByte EEP_UID_REQUEST_KEY_SET_ADDR UID_REQUEST_KEY_OK_KEY,
      sendPRV CMD_SET_UID PLUGIN_BYTE_OK])
  else
    (st, [sendPRV CMD_SET_UID PLUGIN_BYTE_ERROR])

/-- `CMD_GET_UID` case: gated by the timed password check on the UID
request key. -/
def handleGetUid (st : DeviceState) (datalen : Nat) (data : List Nat) :
    DeviceState × List Event :=
  if datalen = UID_REQUEST_KEY_SIZE ∧
      st.eeprom EEP_UID_REQUEST_KEY_SET_ADDR = UID_REQUEST_KEY_OK_KEY then
    let pw := checkMooltipassPassword st.eeprom data EEP_UID_REQUEST_KEY_ADDR UID_REQUEST_KEY_SIZE
    if pw.1 then
      (st, pw.2 ++ [Event.eepromReadBlock EEP_UID_ADDR UID_SIZE,
                    Event.usbSendMessage CMD_GET_UID UID_SIZE
                      ((List.range UID_SIZE).map (fun i => st.eeprom (EEP_UID_ADDR + i)))])
    else
      (st, pw.2 ++ [sendPRV CMD_GET_UID PLUGIN_BYTE_ERROR])
  else
    (st, [sendPRV CMD_GET_UID PLUGIN_BYTE_ERROR])

/-- `CMD_SET_BOOTLOADER_PWD` case: one-time settable password. -/
def handleSetBootloaderPwd (st : DeviceState) (datalen : Nat) (data : List Nat) :
    DeviceState × List Event :=
  if st.eeprom EEP_BOOT_PWD_SET ≠ BOOTLOADER_PWDOK_KEY ∧ datalen = PACKET_EXPORT_SIZE then
    let bytes := data.take PACKET_EXPORT_SIZE
    let ee := Function.update
        (writeBytes (writeBytes st.eeprom EEP_BOOT_PWD bytes)
          EEP_BACKUP_BOOTKEY_ADDR (word16Bytes CORRECT_BOOTKEY))
        EEP_BOOT_PWD_SET BOOTLOADER_PWDOK_KEY
    ({st with eeprom := ee},
     [Event.eepromWriteBlock EEP_BOOT_PWD bytes,
      Event.eepromWriteWord EEP_BACKUP_BOOTKEY_ADDR CORRECT_BOOTKEY,
      Event.eepromWriteByte EEP_BOOT_PWD_SET BOOTLOADER_PWDOK_KEY,
      sendPRV CMD_SET_BOOTLOADER_PWD PLUGIN_BYTE_OK])
  else
    (st, [sendPRV CMD_SET_BOOTLOADER_PWD PLUGIN_BYTE_ERROR])

/-- `CMD_JUMP_TO_BOOTLOADER` case (build without `MINI_VERSION` and
without `DEV_PLUGIN_COMMS`): password-gated watchdog reset.  On success
the C never returns (`while(1)` after enabling the watchdog, modelled
as a reset event); on failure the case has no `break` and falls through
to `default: return`, so no response is ever sent. -/
def handleJumpToBootloader (env : Env) (st : DeviceState) (datalen : Nat) (data : List Nat) :
    DeviceState × List Event :=
  if st.eeprom EEP_BOOT_PWD_SET = BOOTLOADER_PWDOK_KEY ∧ datalen = PACKET_EXPORT_SIZE then
    if env.confirmationOk 2 then
      let pw := checkMooltipassPassword st.eeprom data EEP_BOOT_PWD PACKET_EXPORT_SIZE
      if pw.1 then
        let ee := Function.update
            (writeBytes (writeBytes st.eeprom EEP_BOOTKEY_ADDR (word16Bytes BOOTLOADER_BOOTKEY))
              EEP_BACKUP_BOOTKEY_ADDR (word16Bytes BOOTLOADER_BOOTKEY))
            EEP_BOOT_PWD_SET 0
        ({st with eeprom := ee},
         [Event.userViewDelay, Event.guiAskForConfirmation 2] ++ pw.2 ++
         [Event.eepromWriteWord EEP_BOOTKEY_ADDR BOOTLOADER_BOOTKEY,
          Event.eepromWriteWord EEP_BACKUP_BOOTKEY_ADDR BOOTLOADER_BOOTKEY,
          Event.eepromWriteByte EEP_BOOT_PWD_SET 0,
          Event.systemResetViaWatchdog])
      else
        (st, [Event.userViewDelay, Event.guiAskForConfirmation 2] ++ pw.2 ++
             [Event.guiGetBackToCurrentScreen])
    else
      (st, [Event.userViewDelay, Event.guiAskForConfirmation 2,
            Event.guiGetBackToCurrentScreen])
  else
    (st, [Event.userViewDelay, Event.guiGetBackToCurrentScreen])

/-- The `switch(datacmd)` of `usbProcessIncoming`, in source order.
Cases compiled out by the embedded build configuration
(`DEV_PLUGIN_COMMS`, `MINI_VERSION`) are absent; an unknown command
hits `default: return` and answers nothing. -/
def dispatchSwitch (env : Env) (st : DeviceState) (cmd datalen : Nat) (data : List Nat) :
    DeviceState × List Event :=
  if cmd = CMD_CANCEL_REQUEST then (st, [])
  else if cmd = CMD_PING then (st, [Event.usbHidSend 0 (datalen :: cmd :: data.take 4) 6])
  else if cmd = CMD_VERSION then
    (st, [Event.usbSendMessage CMD_VERSION mooltipass_version.length mooltipass_version])
  else if cmd = CMD_CONTEXT then handleContext env st data
  else if cmd = CMD_SET_DATA_SERVICE then handleSetDataService env st data
  else if cmd = CMD_GET_LOGIN then handleGetLogin env st
  else if cmd = CMD_GET_PASSWORD then handleGetPassword env st
  else if cmd = CMD_GET_DESCRIPTION then handleGetDescription env st
  else if cmd = CMD_SET_LOGIN then handleSetLogin env st datalen data
  else if cmd = CMD_SET_PASSWORD then handleSetPassword env st datalen data
  else if cmd = CMD_CHECK_PASSWORD then handleCheckPassword env st data
  else if cmd = CMD_ADD_CONTEXT then handleAddContext env st datalen data
  else if cmd = CMD_ADD_DATA_SERVICE then handleAddDataService env st datalen data
  else if cmd = CMD_WRITE_32B_IN_DN then handleWrite32BInDN env st datalen data
  else if cmd = CMD_READ_32B_IN_DN then handleRead32BInDN env st
  else if cmd = CMD_START_MEMORYMGMT then handleStartMemoryMgmt env st
  else if cmd = CMD_GET_STARTING_PARENT then handleGetStartingParent env st
  else if cmd = CMD_GET_DN_START_PARENT then handleGetDnStartParent env st
  else if cmd = CMD_GET_FREE_SLOTS_ADDR then handleGetFreeSlotsAddr env st datalen data
  else if cmd = CMD_END_MEMORYMGMT then handleEndMemoryMgmt st
  else if cmd = CMD_READ_FLASH_NODE then handleReadFlashNode env st datalen data
  else if cmd = CMD_SET_FAVORITE then handleSetFavorite st datalen data
  else if cmd = CMD_GET_FAVORITE then handleGetFavorite env st datalen data
  else if cmd = CMD_SET_STARTING_PARENT then handleSetStartingParent st datalen data
  else if cmd = CMD_SET_DN_START_PARENT then handleSetDnStartParent st datalen data
  else if cmd = CMD_SET_CTRVALUE then handleSetCtrValue st datalen data
  else if cmd = CMD_GET_CTRVALUE then handleGetCtrValue env st
  else if cmd = CMD_ADD_CARD_CPZ_CTR then handleAddCardCpzCtr env st datalen data
  else if cmd = CMD_GET_CARD_CPZ_CTR then handleGetCardCpzCtr env st
  else if cmd = CMD_WRITE_FLASH_NODE then handleWriteFlashNode env st datalen data
  else if cmd = CMD_IMPORT_MEDIA_START then handleImportMediaStart env st datalen data
  else if cmd = CMD_IMPORT_MEDIA then handleImportMedia st datalen data
  else if cmd = CMD_IMPORT_MEDIA_END then handleImportMediaEnd st
  else if cmd = CMD_SET_MOOLTIPASS_PARM then handleSetMooltipassParm st datalen data
  else if cmd = CMD_GET_MOOLTIPASS_PARM then handleGetMooltipassParm env st data
  else if cmd = CMD_GET_CUR_CARD_CPZ then handleGetCurCardCpz env st
  else if cmd = CMD_RESET_CARD then handleResetCard env st
  else if cmd = CMD_UNLOCK_WITH_PIN then handleUnlockWithPin env st datalen
  else if cmd = CMD_ADD_UNKNOWN_CARD then handleAddUnknownCard env st datalen data
  else if cmd = CMD_READ_CARD_LOGIN then handleReadCardLogin env st
  else if cmd = CMD_READ_CARD_PASS then handleReadCardPass env st
  else if cmd = CMD_SET_CARD_LOGIN then handleSetCardLogin env st datalen data
  else if cmd = CMD_SET_CARD_PASS then handleSetCardPass env st datalen data
  else if cmd = CMD_GET_RANDOM_NUMBER then handleGetRandomNumber env st
  else if cmd = CMD_SET_DATE then handleSetDate st data
  else if cmd = CMD_SET_UID then handleSetUid st datalen data
  else if cmd = CMD_GET_UID then handleGetUid st datalen data
  else if cmd = CMD_SET_BOOTLOADER_PWD then handleSetBootloaderPwd st datalen data
  else if cmd = CMD_JUMP_TO_BOOTLOADER then handleJumpToBootloader env st datalen data
  else (st, [])

/-- The node-management-mode gate placed before the switch: commands in
the data-management range answered with the generic error byte while
`memoryManagementModeApproved` is false. -/
def checkMemModeAndDispatch (env : Env) (st : DeviceState) (cmd datalen : Nat)
    (data : List Nat) : DeviceState × List Event :=
  if FIRST_CMD_FOR_DATAMGMT ≤ cmd ∧ cmd ≤ LAST_CMD_FOR_DATAMGMT ∧
      st.memoryManagementModeApproved = false then
    (st, [sendPRV cmd PLUGIN_BYTE_ERROR])
  else
    dispatchSwitch env st cmd datalen data

/-- The per-command text-field maximum of the pre-switch check: `some`
for the nine text-field commands (the four service-name commands map to
`NODE_PARENT_SIZE_OF_SERVICE`), `none` when no check is needed. -/
def textFieldCmdMaxSize (cmd : Nat) : Option Nat :=
  if cmd = CMD_CONTEXT ∨ cmd = CMD_ADD_CONTEXT ∨ cmd = CMD_SET_DATA_SERVICE ∨
      cmd = CMD_ADD_DATA_SERVICE then some NODE_PARENT_SIZE_OF_SERVICE
  else if cmd = CMD_SET_LOGIN then some NODE_CHILD_SIZE_OF_LOGIN
  else if cmd = CMD_SET_PASSWORD ∨ cmd = CMD_CHECK_PASSWORD then
    some NODE_CHILD_SIZE_OF_PASSWORD
  else if cmd = CMD_SET_CARD_LOGIN then some (SMARTCARD_MTP_LOGIN_LENGTH / 8)
  else if cmd = CMD_SET_CARD_PASS then some (SMARTCARD_MTP_PASS_LENGTH / 8)
  else none

/-- The status byte answered while awaiting PIN entry or to
`CMD_MOOLTIPASS_STATUS`: bit0 card present, bit1 awaiting PIN, bit2
card unlocked, bit3 unknown-card screen. -/
def mooltipassStatusByte (env : Env) (st : DeviceState) (caller_id : Nat) : Nat :=
  (if env.isSmartCardAbsent = false then 0x01 else 0) |||
  (if caller_id = USB_CALLER_PIN then 0x02 else 0) |||
  (if env.smartCardUnlocked = true then 0x04 else 0) |||
  (if st.currentScreen = SCREEN_DEFAULT_INSERTED_UNKNOWN then 0x08 else 0)

/-- `usbProcessIncoming` from usb_cmd_parser.c, after a successful
`usbRawHidRecv`: the status special case, the text-field check, the
data-management-range privilege gate, then the command switch. -/
def usbProcessIncoming (env : Env) (st : DeviceState) (caller_id : Nat) (msg : UsbMsg) :
    DeviceState × List Event :=
  let datalen := msg.len
  let datacmd := msg.cmd
  if caller_id = USB_CALLER_PIN ∨ datacmd = CMD_MOOLTIPASS_STATUS then
    (st, [Event.usbSendMessage CMD_MOOLTIPASS_STATUS 1
            [mooltipassStatusByte env st caller_id]])
  else
    match textFieldCmdMaxSize datacmd with
    | some m =>
      let r := checkTextField msg.data datalen m
      if r.1 then checkMemModeAndDispatch env st datacmd datalen r.2
      else (st, [sendPRV datacmd PLUGIN_BYTE_ERROR])
    | none => checkMemModeAndDispatch env st datacmd datalen msg.data

/-- Process a list of packets in arrival order, accumulating the event
traces. -/
def runPackets (env : Env) (caller_id : Nat) (st : DeviceState) :
    List UsbMsg → DeviceState × List Event
  | [] => (st, [])
  | m :: rest =>
    let r1 := usbProcessIncoming env st caller_id m
    let r2 := runPackets env caller_id r1.1 rest
    (r2.1, r1.2 ++ r2.2)

/-- A concrete environment for witnesses and counterexamples. -/
def envDefault : Env where
  isSmartCardAbsent := true
  smartCardUnlocked := false
  confirmationOk := fun _ => false
  removeCardAndReAuthOk := false
  setCurrentContextOk := fun _ _ => false
  addNewContextOk := fun _ _ _ => false
  getLoginForContext := none
  getPasswordForContext := none
  getDescriptionForContext := none
  setLoginOk := fun _ _ => false
  setPasswordOk := fun _ _ => false
  checkPasswordResult := fun _ => RETURN_PASS_CHECK_NOK
  addDataOk := fun _ _ => true
  get32BytesData := none
  checkUserPermission := fun a => a ≠ 0
  getStartingParentAddress := 0
  getStartingDataParentAddress := 0
  findFreeNodesResult := []
  getCurrentUserID := 5
  writeSmartCardCPZOk := false
  getMooltipassParameter := fun _ => 0
  guiCardUnlockingOk := false
  cardDetectedMooltipassUser := false
  validCardDetectedOk := false
  cpzBuffer := List.replicate 8 0
  addNewUserOk := false
  newUserId := 0
  websiteLogin := []
  websitePassword := []
  appZone1 := List.replicate 64 0
  appZone2 := List.replicate 64 0
  randomBytes := List.replicate 32 0
  nodeContent := fun _ => List.replicate NODE_SIZE 0
  readFavResult := fun _ => (0, 0)
  profileCtr := List.replicate USER_CTR_SIZE 0

/-- A concrete device state for witnesses and counterexamples. -/
def stDefault : DeviceState where
  memoryManagementModeApproved := false
  mediaFlashImportApproved := false
  currentNodeWritten := NODE_ADDR_NULL
  mediaFlashImportPage := 0
  mediaFlashImportOffset := 0
  currentScreen := SCREEN_DEFAULT_NINSERTED
  internalBuffer := fun _ => 7
  flashPages := fun _ _ => 9
  eeprom := fun _ => 0

/-- The three in-order sub-indexed `CMD_WRITE_FLASH_NODE` packets
writing a full node at `addr` with content `c0 ++ c1 ++ c2` (chunks of
`PACKET_EXPORT_SIZE - 3` = 59, 59 and 14 bytes). -/
def writeNodePackets (addr : Nat) (c0 c1 c2 : List Nat) : List UsbMsg :=
  [⟨3 + c0.length, CMD_WRITE_FLASH_NODE, addr % 256 :: addr / 256 :: 0 :: c0⟩,
   ⟨3 + c1.length, CMD_WRITE_FLASH_NODE, addr % 256 :: addr / 256 :: 1 :: c1⟩,
   ⟨3 + c2.length, CMD_WRITE_FLASH_NODE, addr % 256 :: addr / 256 :: 2 :: c2⟩]

/-- Full node content with the user id stamped into the leading
little-endian flags word, as the sub-index-0 packet's in-place
`userIdToFlags` produces on the node's first two bytes. -/
def stampNodeContent (uid : Nat) (P : List Nat) : List Nat :=
  let w := userIdToFlags (wordAt P 0) uid
  (P.set 0 (w % 256)).set 1 (w / 256 % 256)

/-- The device state after a complete node write of content `P` at
`addr`, phrased as a single direct write: the target is established,
the staged page holds the stamped content written once at the node
base, and the page has been flushed.  This is the comparison target of
the multi-packet reconstruction property. -/
def nodeWrittenState (env : Env) (st : DeviceState) (addr : Nat) (P : List Nat) :
    DeviceState :=
  let buf := writeBytes (fun i => st.flashPages (pageNumberFromAddress addr) i)
      (NODE_SIZE * nodeNumberFromAddress addr) (stampNodeContent env.getCurrentUserID P)
  {st with currentNodeWritten := addr,
           internalBuffer := buf,
           flashPages := Function.update st.flashPages (pageNumberFromAddress addr) buf}

/-! Helper lemmas. -/

/-- `checkTextField` rejects exactly when one of the four length
conditions fails. -/
lemma checkTextField_reject (data : List Nat) (len m : Nat)
    (h : ¬(len ≠ 0 ∧ len ≤ m ∧ len = strlenL data + 1 ∧
           len ≤ RAWHID_RX_SIZE - HID_DATA_START)) :
    checkTextField data len m = (false, data) := by
  simp only [checkTextField, RAWHID_RX_SIZE, HID_DATA_START] at *
  rw [if_pos (by omega)]

/-- `checkTextField` accepts when the four length conditions hold,
lower-casing service-name payloads. -/
lemma checkTextField_accept (data : List Nat) (len m : Nat)
    (h : len ≠ 0 ∧ len ≤ m ∧ len = strlenL data + 1 ∧
         len ≤ RAWHID_RX_SIZE - HID_DATA_START) :
    checkTextField data len m =
      (true, if m = NODE_PARENT_SIZE_OF_SERVICE then lowerCaseString data else data) := by
  simp only [checkTextField, RAWHID_RX_SIZE, HID_DATA_START] at *
  rw [if_neg (by omega)]
  rcases eq_or_ne m NODE_PARENT_SIZE_OF_SERVICE with hm | hm
  · subst hm; simp
  · rw [if_neg hm, if_neg hm]

/-- Writing a concatenation equals writing the two parts one after the
other. -/
lemma writeBytes_append (xs ys : List Nat) (buf : Nat → Nat) (off : Nat) :
    writeBytes buf off (xs ++ ys) =
      writeBytes (writeBytes buf off xs) (off + xs.length) ys := by
  induction xs generalizing buf off with
  | nil => simp [writeBytes]
  | cons b rest ih =>
    show writeBytes (Function.update buf off b) (off + 1) (rest ++ ys) = _
    rw [ih, show off + 1 + rest.length = off + (b :: rest).length from by simp; omega]
    rfl

/-- `List.set` at an index inside the left part of an append. -/
lemma set_append_left (l₁ l₂ : List Nat) (n x : Nat) (h : n < l₁.length) :
    (l₁ ++ l₂).set n x = l₁.set n x ++ l₂ := by
  induction l₁ generalizing n with
  | nil => simp at h
  | cons a t ih =>
    cases n with
    | zero => simp
    | succ m =>
      simp only [List.cons_append, List.set_cons_succ, List.length_cons] at *
      rw [ih m (by omega)]

/-- `List.getD` at an index inside the left part of an append. -/
lemma getD_append_left (l₁ l₂ : List Nat) (n : Nat) (h : n < l₁.length) :
    (l₁ ++ l₂).getD n 0 = l₁.getD n 0 := by
  induction l₁ generalizing n with
  | nil => simp at h
  | cons a t ih =>
    cases n with
    | zero => simp
    | succ m =>
      simp only [List.cons_append, List.getD_cons_succ, List.length_cons] at *
      exact ih m (by omega)

/-- Stamping the flags word only touches the first chunk of a node
content split as `c0 ++ rest`. -/
lemma stampNodeContent_append (uid : Nat) (c0 rest : List Nat) (h : 2 ≤ c0.length) :
    stampNodeContent uid (c0 ++ rest) = stampNodeContent uid c0 ++ rest := by
  simp only [stampNodeContent, wordAt, Nat.zero_add]
  rw [getD_append_left _ _ 0 (by omega), getD_append_left _ _ 1 (by omega)]
  rw [set_append_left _ _ 0 _ (by omega)]
  rw [set_append_left _ _ 1 _ (by simp only [List.length_set]; omega)]

/-- The pre-switch stages reduce to the privilege gate when the status
special case does not apply and no text-field check is required. -/
lemma usbProcessIncoming_eq_dispatch (env : Env) (st : DeviceState) (caller_id : Nat)
    (msg : UsbMsg)
    (h : ¬(caller_id = USB_CALLER_PIN ∨ msg.cmd = CMD_MOOLTIPASS_STATUS))
    (htext : textFieldCmdMaxSize msg.cmd = none) :
    usbProcessIncoming env st caller_id msg =
      checkMemModeAndDispatch env st msg.cmd msg.len msg.data := by
  simp only [usbProcessIncoming, htext]
  rw [if_neg h]

/-- The privilege gate fires for a data-management command outside
approved mode. -/
lemma checkMemModeAndDispatch_priv_err (env : Env) (st : DeviceState)
    (cmd datalen : Nat) (data : List Nat)
    (h1 : FIRST_CMD_FOR_DATAMGMT ≤ cmd) (h2 : cmd ≤ LAST_CMD_FOR_DATAMGMT)
    (hmm : st.memoryManagementModeApproved = false) :
    checkMemModeAndDispatch env st cmd datalen data =
      (st, [sendPRV cmd PLUGIN_BYTE_ERROR]) := by
  simp only [checkMemModeAndDispatch]
  rw [if_pos ⟨h1, h2, hmm⟩]

/-- The privilege gate passes through to the switch otherwise. -/
lemma checkMemModeAndDispatch_ok (env : Env) (st : DeviceState)
    (cmd datalen : Nat) (data : List Nat)
    (h : ¬(FIRST_CMD_FOR_DATAMGMT ≤ cmd ∧ cmd ≤ LAST_CMD_FOR_DATAMGMT ∧
           st.memoryManagementModeApproved = false)) :
    checkMemModeAndDispatch env st cmd datalen data =
      dispatchSwitch env st cmd datalen data := by
  simp only [checkMemModeAndDispatch]
  rw [if_neg h]

/-- Switch routing: `CMD_CANCEL_REQUEST` is answered by silence. -/
lemma dispatchSwitch_cancel (env : Env) (st : DeviceState) (cmd datalen : Nat)
    (data : List Nat) (h : cmd = CMD_CANCEL_REQUEST) :
    dispatchSwitch env st cmd datalen data = (st, []) := by subst h; rfl

/-- Switch routing for `CMD_END_MEMORYMGMT`. -/
lemma dispatchSwitch_endMemoryMgmt (env : Env) (st : DeviceState) (cmd datalen : Nat)
    (data : List Nat) (h : cmd = CMD_END_MEMORYMGMT) :
    dispatchSwitch env st cmd datalen data = handleEndMemoryMgmt st := by subst h; rfl

/-- Switch routing for `CMD_WRITE_FLASH_NODE`. -/
lemma dispatchSwitch_writeFlashNode (env : Env) (st : DeviceState) (cmd datalen : Nat)
    (data : List Nat) (h : cmd = CMD_WRITE_FLASH_NODE) :
    dispatchSwitch env st cmd datalen data =
      handleWriteFlashNode env st datalen data := by subst h; rfl

/-- Switch routing for `CMD_SET_FAVORITE`. -/
lemma dispatchSwitch_setFavorite (env : Env) (st : DeviceState) (cmd datalen : Nat)
    (data : List Nat) (h : cmd = CMD_SET_FAVORITE) :
    dispatchSwitch env st cmd datalen data =
      handleSetFavorite st datalen data := by subst h; rfl

/-- Switch routing for `CMD_GET_FAVORITE`. -/
lemma dispatchSwitch_getFavorite (env : Env) (st : DeviceState) (cmd datalen : Nat)
    (data : List Nat) (h : cmd = CMD_GET_FAVORITE) :
    dispatchSwitch env st cmd datalen data =
      handleGetFavorite env st datalen data := by subst h; rfl

/-- Stamping the packet flags word inside a `CMD_WRITE_FLASH_NODE`
packet body acts on bytes 3 and 4, i.e. on the first two bytes of the
carried chunk. -/
lemma stampUserIdFlags_cons (uid lo hi k : Nat) (c : List Nat) :
    stampUserIdFlags uid (lo :: hi :: k :: c) = lo :: hi :: k :: stampNodeContent uid c := by
  simp [stampUserIdFlags, stampNodeContent, wordAt]

/-- Stamping preserves length. -/
lemma stampNodeContent_length (uid : Nat) (c : List Nat) :
    (stampNodeContent uid c).length = c.length := by
  simp [stampNodeContent]

/-- Taking a stamped chunk at its own length is the identity. -/
lemma stampNodeContent_take (uid : Nat) (c : List Nat) :
    (stampNodeContent uid c).take c.length = stampNodeContent uid c := by
  rw [← stampNodeContent_length uid c, List.take_length]

/-- A sub-index-0 `CMD_WRITE_FLASH_NODE` packet passing the ownership
check (outside PIN mode, in approved mode) re-targets
`currentNodeWritten`, loads the target's flash page into the staging
buffer and writes its chunk — with the user id stamped into the node
flags word — at the node's base offset. -/
lemma writeFlashNode_sub0 (env : Env) (st : DeviceState) (caller_id addr : Nat)
    (c : List Nat)
    (hc : caller_id ≠ USB_CALLER_PIN) (hmm : st.memoryManagementModeApproved = true)
    (hperm : env.checkUserPermission addr = true)
    (haddr : addr ≠ NODE_ADDR_NULL) (_haddr2 : addr < 65536)
    (hclen : c.length ≤ NODE_SIZE) :
    usbProcessIncoming env st caller_id
        ⟨3 + c.length, CMD_WRITE_FLASH_NODE, addr % 256 :: addr / 256 :: 0 :: c⟩ =
      ({st with currentNodeWritten := addr,
                internalBuffer :=
                  writeBytes (fun i => st.flashPages (pageNumberFromAddress addr) i)
                    (NODE_SIZE * nodeNumberFromAddress addr)
                    (stampNodeContent env.getCurrentUserID c)},
       [Event.loadPageToInternalBuffer (pageNumberFromAddress addr),
        Event.flashWriteBuffer (stampNodeContent env.getCurrentUserID c)
          (NODE_SIZE * nodeNumberFromAddress addr) c.length,
        Event.usbSendMessage CMD_WRITE_FLASH_NODE 1 [PLUGIN_BYTE_OK]]) := by
  simp only [USB_CALLER_PIN] at hc
  simp only [NODE_ADDR_NULL] at haddr
  simp only [NODE_SIZE] at hclen
  have h3 : ¬(3 + c.length < 3) := by omega
  rw [usbProcessIncoming_eq_dispatch _ _ _ _ (by simp [hc]) (by rfl),
      checkMemModeAndDispatch_ok _ _ _ _ _ (by simp [hmm]),
      dispatchSwitch_writeFlashNode _ _ _ _ _ (by rfl)]
  simp [handleWriteFlashNode, sendPRV, wordAt, hperm, haddr, hclen, h3,
    Nat.mod_add_div, stampUserIdFlags_cons, stampNodeContent_take]

/-- A `CMD_WRITE_FLASH_NODE` packet with nonzero, non-final sub-index
`k` addressed to the current write target appends its chunk at offset
`k * (PACKET_EXPORT_SIZE - 3)` within the staged node. -/
lemma writeFlashNode_subk (env : Env) (st : DeviceState) (caller_id addr k : Nat)
    (c : List Nat)
    (hc : caller_id ≠ USB_CALLER_PIN) (hmm : st.memoryManagementModeApproved = true)
    (hcur : st.currentNodeWritten = addr)
    (haddr : addr ≠ NODE_ADDR_NULL) (_haddr2 : addr < 65536)
    (hk0 : k ≠ 0) (hk2 : k ≠ NODE_SIZE / (PACKET_EXPORT_SIZE - 3))
    (hbound : k * (PACKET_EXPORT_SIZE - 3) + c.length ≤ NODE_SIZE) :
    usbProcessIncoming env st caller_id
        ⟨3 + c.length, CMD_WRITE_FLASH_NODE, addr % 256 :: addr / 256 :: k :: c⟩ =
      ({st with internalBuffer :=
          (writeBytes st.internalBuffer
            (NODE_SIZE * nodeNumberFromAddress addr + k * (PACKET_EXPORT_SIZE - 3)) c)},
       [Event.flashWriteBuffer c
          (NODE_SIZE * nodeNumberFromAddress addr + k * (PACKET_EXPORT_SIZE - 3)) c.length,
        Event.usbSendMessage CMD_WRITE_FLASH_NODE 1 [PLUGIN_BYTE_OK]]) := by
  simp only [USB_CALLER_PIN] at hc
  simp only [NODE_ADDR_NULL] at haddr
  simp only [NODE_SIZE, PACKET_EXPORT_SIZE] at hbound hk2
  have h3 : ¬(3 + c.length < 3) := by omega
  rw [usbProcessIncoming_eq_dispatch _ _ _ _ (by simp [hc]) (by rfl),
      checkMemModeAndDispatch_ok _ _ _ _ _ (by simp [hmm]),
      dispatchSwitch_writeFlashNode _ _ _ _ _ (by rfl)]
  simp [handleWriteFlashNode, sendPRV, wordAt, hcur, haddr, hbound, hk0, hk2, h3,
    Nat.mod_add_div, List.take_length]

/-- A `CMD_WRITE_FLASH_NODE` packet with the final sub-index
`NODE_SIZE / (PACKET_EXPORT_SIZE - 3)` = 2 addressed to the current
target appends its chunk and flushes the staged page to flash. -/
lemma writeFlashNode_subflush (env : Env) (st : DeviceState) (caller_id addr : Nat)
    (c : List Nat)
    (hc : caller_id ≠ USB_CALLER_PIN) (hmm : st.memoryManagementModeApproved = true)
    (hcur : st.currentNodeWritten = addr)
    (haddr : addr ≠ NODE_ADDR_NULL) (_haddr2 : addr < 65536)
    (hbound : 2 * (PACKET_EXPORT_SIZE - 3) + c.length ≤ NODE_SIZE) :
    usbProcessIncoming env st caller_id
        ⟨3 + c.length, CMD_WRITE_FLASH_NODE, addr % 256 :: addr / 256 :: 2 :: c⟩ =
      ({st with internalBuffer :=
                  (writeBytes st.internalBuffer
                    (NODE_SIZE * nodeNumberFromAddress addr + 2 * (PACKET_EXPORT_SIZE - 3)) c),
                flashPages :=
                  (Function.update st.flashPages (pageNumberFromAddress addr)
                    (writeBytes st.internalBuffer
                      (NODE_SIZE * nodeNumberFromAddress addr + 2 * (PACKET_EXPORT_SIZE - 3)) c))},
       [Event.flashWriteBuffer c
          (NODE_SIZE * nodeNumberFromAddress addr + 2 * (PACKET_EXPORT_SIZE - 3)) c.length,
        Event.flashWriteBufferToPage (pageNumberFromAddress addr),
        Event.usbSendMessage CMD_WRITE_FLASH_NODE 1 [PLUGIN_BYTE_OK]]) := by
  simp only [USB_CALLER_PIN] at hc
  simp only [NODE_ADDR_NULL] at haddr
  simp only [NODE_SIZE, PACKET_EXPORT_SIZE] at hbound
  have h3 : ¬(3 + c.length < 3) := by omega
  rw [usbProcessIncoming_eq_dispatch _ _ _ _ (by simp [hc]) (by rfl),
      checkMemModeAndDispatch_ok _ _ _ _ _ (by simp [hmm]),
      dispatchSwitch_writeFlashNode _ _ _ _ _ (by rfl)]
  simp [handleWriteFlashNode, sendPRV, wordAt, hcur, haddr, hbound, h3,
    Nat.mod_add_div, List.take_length]

/-- A `CMD_WRITE_FLASH_NODE` packet with nonzero sub-index whose
address does not match the current write target, or whose cumulative
offset would exceed the node size, is rejected with the error byte and
leaves the device state — including the staged buffer — unchanged. -/
lemma writeFlashNode_reject (env : Env) (st : DeviceState) (caller_id : Nat) (msg : UsbMsg)
    (hc : caller_id ≠ USB_CALLER_PIN) (hmm : st.memoryManagementModeApproved = true)
    (hcmd : msg.cmd = CMD_WRITE_FLASH_NODE) (hlen : 3 ≤ msg.len)
    (hsub : msg.data.getD 2 0 ≠ 0)
    (hrej : st.currentNodeWritten ≠ wordAt msg.data 0 ∨
            NODE_SIZE < msg.data.getD 2 0 * (PACKET_EXPORT_SIZE - 3) + (msg.len - 3)) :
    usbProcessIncoming env st caller_id msg =
      (st, [Event.usbSendMessage CMD_WRITE_FLASH_NODE 1 [PLUGIN_BYTE_ERROR]]) := by
  obtain ⟨len, cmd, data⟩ := msg
  simp only [USB_CALLER_PIN] at hc
  simp only [CMD_WRITE_FLASH_NODE] at hcmd
  subst hcmd
  replace hlen : 3 ≤ len := hlen
  have h3 : ¬(len < 3) := by omega
  rw [usbProcessIncoming_eq_dispatch _ _ _ _ (by simp [hc]) (by rfl),
      checkMemModeAndDispatch_ok _ _ _ _ _ (by simp [hmm]),
      dispatchSwitch_writeFlashNode _ _ _ _ _ (by rfl)]
  rcases hrej with h | h
  · simp at hsub h
    simp [handleWriteFlashNode, sendPRV, hsub, h3, h]
  · simp at hsub h
    have hb : ¬((data[2]?.getD 0) * 59 + (len - 3) ≤ 132) := by omega
    simp [handleWriteFlashNode, sendPRV, hsub, h3, hb]

/-- Unfold one step of `runPackets` given the evaluation of the head
packet. -/
lemma runPackets_cons_eq (env : Env) (caller_id : Nat) (st : DeviceState) (m : UsbMsg)
    (rest : List UsbMsg) (st' : DeviceState) (ev : List Event)
    (h : usbProcessIncoming env st caller_id m = (st', ev)) :
    runPackets env caller_id st (m :: rest) =
      ((runPackets env caller_id st' rest).1, ev ++ (runPackets env caller_id st' rest).2) := by
  simp [runPackets, h]

/-! Claim theorems. -/

/-- C9: every stored-password comparison in `checkMooltipassPassword`
emits, for all inputs, the same trace of primitives: the eeprom read,
starting the 1000 ms credential timer, the comparison, the busy wait
for the timer to expire, and the zeroization of the password buffer
before returning — so the duration is fixed by the timer regardless of
where the comparison mismatches, and the buffer is cleared after the
comparison and before the return; and the function returns TRUE iff
the candidate bytes equal the stored bytes over the given length. -/
theorem C9_checkMooltipassPassword (eeprom : Nat → Nat) (data : List Nat) (addr len : Nat) :
    (checkMooltipassPassword eeprom data addr len).2 =
      [Event.eepromReadBlock addr len,
       Event.activateTimer TIMER_CREDENTIALS 1000,
       Event.memcmpRun,
       Event.waitTimerExpired TIMER_CREDENTIALS,
       Event.zeroizeBuffer PACKET_EXPORT_SIZE] ∧
    ((checkMooltipassPassword eeprom data addr len).1 = true ↔
      ∀ i < len, eeprom (addr + i) = data.getD i 0) := by
  refine ⟨rfl, ?_⟩
  simp [checkMooltipassPassword, List.map_inj_left]

/-- C3: while the caller is awaiting PIN entry, and for
`CMD_MOOLTIPASS_STATUS` in any mode, the dispatcher answers at once
with one status byte (bit0 card present, bit1 awaiting PIN, bit2 card
unlocked, bit3 unknown-card screen), leaves the state untouched and
processes the packet no further. -/
theorem C3_status_response (env : Env) (st : DeviceState) (caller_id : Nat) (msg : UsbMsg)
    (h : caller_id = USB_CALLER_PIN ∨ msg.cmd = CMD_MOOLTIPASS_STATUS) :
    usbProcessIncoming env st caller_id msg =
      (st, [Event.usbSendMessage CMD_MOOLTIPASS_STATUS 1
              [mooltipassStatusByte env st caller_id]]) ∧
    ((mooltipassStatusByte env st caller_id).testBit 0 = !env.isSmartCardAbsent) ∧
    ((mooltipassStatusByte env st caller_id).testBit 1 =
      decide (caller_id = USB_CALLER_PIN)) ∧
    ((mooltipassStatusByte env st caller_id).testBit 2 = env.smartCardUnlocked) ∧
    ((mooltipassStatusByte env st caller_id).testBit 3 =
      decide (st.currentScreen = SCREEN_DEFAULT_INSERTED_UNKNOWN)) := by
  refine ⟨?_, ?_, ?_, ?_, ?_⟩
  · simp only [usbProcessIncoming]
    rw [if_pos h]
  all_goals
    cases ha : env.isSmartCardAbsent <;>
    by_cases hcaller : caller_id = 1 <;>
    cases hu : env.smartCardUnlocked <;>
    by_cases hs : st.currentScreen = 3 <;>
    simp [mooltipassStatusByte, ha, hcaller, hu, hs] <;>
    decide

/-- Witness for C3 at a concrete input. -/
theorem C3_witness :
    (USB_CALLER_PIN = USB_CALLER_PIN ∨ (UsbMsg.mk 0 2 []).cmd = CMD_MOOLTIPASS_STATUS) ∧
    (usbProcessIncoming envDefault stDefault USB_CALLER_PIN ⟨0, 2, []⟩ =
      (stDefault, [Event.usbSendMessage CMD_MOOLTIPASS_STATUS 1
                     [mooltipassStatusByte envDefault stDefault USB_CALLER_PIN]]) ∧
     ((mooltipassStatusByte envDefault stDefault USB_CALLER_PIN).testBit 0 =
        !envDefault.isSmartCardAbsent) ∧
     ((mooltipassStatusByte envDefault stDefault USB_CALLER_PIN).testBit 1 =
        decide (USB_CALLER_PIN = USB_CALLER_PIN)) ∧
     ((mooltipassStatusByte envDefault stDefault USB_CALLER_PIN).testBit 2 =
        envDefault.smartCardUnlocked) ∧
     ((mooltipassStatusByte envDefault stDefault USB_CALLER_PIN).testBit 3 =
        decide (stDefault.currentScreen = SCREEN_DEFAULT_INSERTED_UNKNOWN))) :=
  ⟨Or.inl rfl, C3_status_response envDefault stDefault USB_CALLER_PIN ⟨0, 2, []⟩ (Or.inl rfl)⟩

/-- C1 counterexample: a data-management-range command received while
`memoryManagementModeApproved` is false but while the caller is in
awaiting-PIN mode is answered by the status special case, not by the
generic error byte echoing the command id. -/
theorem C1_counterexample :
    (usbProcessIncoming envDefault stDefault USB_CALLER_PIN ⟨2, 48, [0, 0]⟩).2 ≠
      [Event.usbSendMessage 48 1 [PLUGIN_BYTE_ERROR]] := by
  intro h
  simp [usbProcessIncoming, sendPRV] at h

/-- C1 amended: for every packet whose command lies in
`FIRST_CMD_FOR_DATAMGMT..LAST_CMD_FOR_DATAMGMT` received while
`memoryManagementModeApproved` is false and while the caller is not in
awaiting-PIN mode, the dispatcher sends exactly one generic-error byte
echoing the command id and mutates nothing (no switch handler runs). -/
theorem C1_amended (env : Env) (st : DeviceState) (caller_id : Nat) (msg : UsbMsg)
    (hc : caller_id ≠ USB_CALLER_PIN)
    (h1 : FIRST_CMD_FOR_DATAMGMT ≤ msg.cmd) (h2 : msg.cmd ≤ LAST_CMD_FOR_DATAMGMT)
    (hmm : st.memoryManagementModeApproved = false) :
    usbProcessIncoming env st caller_id msg =
      (st, [Event.usbSendMessage msg.cmd 1 [PLUGIN_BYTE_ERROR]]) := by
  obtain ⟨len, cmd, data⟩ := msg
  simp only [USB_CALLER_PIN] at hc
  simp only [FIRST_CMD_FOR_DATAMGMT, LAST_CMD_FOR_DATAMGMT, CMD_READ_FLASH_NODE,
    CMD_END_MEMORYMGMT] at h1 h2
  have htext : textFieldCmdMaxSize cmd = none := by interval_cases cmd <;> rfl
  rw [usbProcessIncoming_eq_dispatch _ _ _ _ (by simp [hc]; omega) htext,
      checkMemModeAndDispatch_priv_err _ _ _ _ _ (by simpa using h1) (by simpa using h2) hmm]
  rfl

/-- Witness for C1 at a concrete input. -/
theorem C1_witness :
    (0 : Nat) ≠ USB_CALLER_PIN ∧
    FIRST_CMD_FOR_DATAMGMT ≤ (UsbMsg.mk 2 48 [0, 0]).cmd ∧
    (UsbMsg.mk 2 48 [0, 0]).cmd ≤ LAST_CMD_FOR_DATAMGMT ∧
    stDefault.memoryManagementModeApproved = false ∧
    usbProcessIncoming envDefault stDefault 0 ⟨2, 48, [0, 0]⟩ =
      (stDefault, [Event.usbSendMessage 48 1 [PLUGIN_BYTE_ERROR]]) :=
  ⟨by decide, by decide, by decide, rfl,
   C1_amended envDefault stDefault 0 ⟨2, 48, [0, 0]⟩ (by decide) (by decide) (by decide) rfl⟩

/-- C2 counterexample: a malformed text-field packet (CMD_CONTEXT with
declared length 0) received while the caller is in awaiting-PIN mode is
answered by the status special case, not rejected with the generic
error byte. -/
theorem C2_counterexample :
    (usbProcessIncoming envDefault stDefault USB_CALLER_PIN ⟨0, CMD_CONTEXT, [97, 0]⟩).2 ≠
      [Event.usbSendMessage CMD_CONTEXT 1 [PLUGIN_BYTE_ERROR]] := by
  intro h
  simp [usbProcessIncoming, sendPRV] at h

/-- C2 amended: for every text-field command (those with
`textFieldCmdMaxSize` set: CMD_CONTEXT, CMD_ADD_CONTEXT,
CMD_SET_DATA_SERVICE, CMD_ADD_DATA_SERVICE, CMD_SET_LOGIN,
CMD_SET_PASSWORD, CMD_CHECK_PASSWORD, CMD_SET_CARD_LOGIN,
CMD_SET_CARD_PASS), received while the caller is not in awaiting-PIN
mode, the dispatcher rejects the packet with the generic error byte
echoing the command id unless the declared length is nonzero, does not
exceed the field's maximum, equals the payload's true string length
plus one, and fits the transport's maximum payload; when the checks
pass, processing continues with the payload lower-cased in place
exactly for the service-name commands (field maximum
`NODE_PARENT_SIZE_OF_SERVICE`). -/
theorem C2_amended (env : Env) (st : DeviceState) (caller_id : Nat) (msg : UsbMsg) (m : Nat)
    (hc : caller_id ≠ USB_CALLER_PIN)
    (htext : textFieldCmdMaxSize msg.cmd = some m) :
    (¬(msg.len ≠ 0 ∧ msg.len ≤ m ∧ msg.len = strlenL msg.data + 1 ∧
        msg.len ≤ RAWHID_RX_SIZE - HID_DATA_START) →
      usbProcessIncoming env st caller_id msg =
        (st, [Event.usbSendMessage msg.cmd 1 [PLUGIN_BYTE_ERROR]])) ∧
    ((msg.len ≠ 0 ∧ msg.len ≤ m ∧ msg.len = strlenL msg.data + 1 ∧
        msg.len ≤ RAWHID_RX_SIZE - HID_DATA_START) →
      usbProcessIncoming env st caller_id msg =
        checkMemModeAndDispatch env st msg.cmd msg.len
          (if m = NODE_PARENT_SIZE_OF_SERVICE then lowerCaseString msg.data
           else msg.data)) := by
  obtain ⟨len, cmd, data⟩ := msg
  simp only [USB_CALLER_PIN] at hc
  have h26 : cmd ≠ 26 := by
    intro h
    subst h
    simp [textFieldCmdMaxSize] at htext
  constructor
  · intro hbad
    have hck := checkTextField_reject data len m hbad
    simp [usbProcessIncoming, hc, h26, htext, hck, sendPRV]
  · intro hgood
    have hck := checkTextField_accept data len m hgood
    simp [usbProcessIncoming, hc, h26, htext, hck]

/-- Witness for C2 at a concrete input: a valid CMD_CONTEXT packet with
payload "A\0" proceeds into the privilege gate and switch with the
payload lower-cased. -/
theorem C2_witness :
    (0 : Nat) ≠ USB_CALLER_PIN ∧
    textFieldCmdMaxSize (UsbMsg.mk 2 4 [65, 0]).cmd = some NODE_PARENT_SIZE_OF_SERVICE ∧
    usbProcessIncoming envDefault stDefault 0 ⟨2, 4, [65, 0]⟩ =
      checkMemModeAndDispatch envDefault stDefault 4 2 (lowerCaseString [65, 0]) := by
  refine ⟨by decide, by decide, ?_⟩
  have h := (C2_amended envDefault stDefault 0 ⟨2, 4, [65, 0]⟩ NODE_PARENT_SIZE_OF_SERVICE
    (by decide) (by decide)).2 (by decide)
  simpa using h

/-- C5: processing `CMD_END_MEMORYMGMT` in approved memory-management
mode clears the privileged flag, resets `currentNodeWritten` to
`NODE_ADDR_NULL`, and — as the trace shows — refreshes the services
LUT (`populateServicesLut`) and the node-usage scan (`scanNodeUsage`)
before the OK response is sent. -/
theorem C5_end_memorymgmt (env : Env) (st : DeviceState) (caller_id : Nat) (msg : UsbMsg)
    (hc : caller_id ≠ USB_CALLER_PIN) (hcmd : msg.cmd = CMD_END_MEMORYMGMT)
    (hmm : st.memoryManagementModeApproved = true) :
    usbProcessIncoming env st caller_id msg =
      ({st with currentScreen := SCREEN_DEFAULT_INSERTED_NLCK,
                currentNodeWritten := NODE_ADDR_NULL,
                memoryManagementModeApproved := false},
       [Event.guiSetCurrentScreen SCREEN_DEFAULT_INSERTED_NLCK,
        Event.guiGetBackToCurrentScreen,
        Event.activityDetectedRoutine,
        Event.populateServicesLut,
        Event.scanNodeUsage,
        Event.usbSendMessage CMD_END_MEMORYMGMT 1 [PLUGIN_BYTE_OK]]) := by
  simp only [USB_CALLER_PIN] at hc
  rw [usbProcessIncoming_eq_dispatch _ _ _ _ (by simp [hc, hcmd]) (by simp only [hcmd]; decide),
      hcmd, checkMemModeAndDispatch_ok _ _ _ _ _ (by simp [hmm]),
      dispatchSwitch_endMemoryMgmt _ _ _ _ _ (by rfl)]
  simp [handleEndMemoryMgmt, sendPRV]

/-- Witness for C5 at a concrete input. -/
theorem C5_witness :
    (0 : Nat) ≠ USB_CALLER_PIN ∧
    (UsbMsg.mk 0 61 []).cmd = CMD_END_MEMORYMGMT ∧
    ({stDefault with memoryManagementModeApproved := true} :
        DeviceState).memoryManagementModeApproved = true ∧
    usbProcessIncoming envDefault {stDefault with memoryManagementModeApproved := true}
        0 ⟨0, 61, []⟩ =
      ({{stDefault with memoryManagementModeApproved := true} with
          currentScreen := SCREEN_DEFAULT_INSERTED_NLCK,
          currentNodeWritten := NODE_ADDR_NULL,
          memoryManagementModeApproved := false},
       [Event.guiSetCurrentScreen SCREEN_DEFAULT_INSERTED_NLCK,
        Event.guiGetBackToCurrentScreen,
        Event.activityDetectedRoutine,
        Event.populateServicesLut,
        Event.scanNodeUsage,
        Event.usbSendMessage CMD_END_MEMORYMGMT 1 [PLUGIN_BYTE_OK]]) :=
  ⟨by decide, by decide, rfl,
   C5_end_memorymgmt envDefault {stDefault with memoryManagementModeApproved := true}
     0 ⟨0, 61, []⟩ (by decide) (by decide) rfl⟩

/-- C6 counterexample: a `CMD_CANCEL_REQUEST` packet received while
the caller is in awaiting-PIN mode is answered with the status byte,
so it is not true that the dispatcher sends nothing in every state. -/
theorem C6_counterexample :
    (usbProcessIncoming envDefault stDefault USB_CALLER_PIN
        ⟨0, CMD_CANCEL_REQUEST, []⟩).2 ≠ [] := by
  intro h
  simp [usbProcessIncoming, sendPRV] at h

/-- C6 amended: `CMD_CANCEL_REQUEST` is answered with silence (no
response packet of any kind, and no state change) whenever the caller
is not in awaiting-PIN mode; in awaiting-PIN mode the status special
case answers first. -/
theorem C6_amended (env : Env) (st : DeviceState) (caller_id : Nat) (msg : UsbMsg)
    (hc : caller_id ≠ USB_CALLER_PIN) (hcmd : msg.cmd = CMD_CANCEL_REQUEST) :
    usbProcessIncoming env st caller_id msg = (st, []) := by
  simp only [USB_CALLER_PIN] at hc
  rw [usbProcessIncoming_eq_dispatch _ _ _ _ (by simp [hc, hcmd]) (by simp only [hcmd]; decide),
      hcmd, checkMemModeAndDispatch_ok _ _ _ _ _ (by simp),
      dispatchSwitch_cancel _ _ _ _ _ (by rfl)]

/-- Witness for C6 at a concrete input. -/
theorem C6_witness :
    (0 : Nat) ≠ USB_CALLER_PIN ∧
    (UsbMsg.mk 0 36 []).cmd = CMD_CANCEL_REQUEST ∧
    usbProcessIncoming envDefault stDefault 0 ⟨0, 36, []⟩ = (stDefault, []) :=
  ⟨by decide, by decide, C6_amended envDefault stDefault 0 ⟨0, 36, []⟩ (by decide) (by decide)⟩

/-- C7: the `CMD_WRITE_32B_IN_DN` handler calls
`addDataForDataContext` with the payload before checking the declared
length: at the failing input (declared length 5 instead of
`1 + DATA_NODE_BLOCK_SIZ` = 33, data context set and accepting), the
node store call still runs — the block is appended — and only then is
the error byte sent. -/
theorem C7_length_check_after_call :
    (usbProcessIncoming envDefault stDefault USB_CALLER_MAIN
        ⟨5, CMD_WRITE_32B_IN_DN, [1, 9, 9, 9, 9]⟩).2 =
      [Event.addDataForDataContext [9, 9, 9, 9] 1,
       Event.usbSendMessage CMD_WRITE_32B_IN_DN 1 [PLUGIN_BYTE_ERROR]] := rfl

/-- C8 counterexample: a `CMD_SET_FAVORITE` packet with slot byte 255
(far beyond the `USER_MAX_FAV`-entry favorites array) and correct
declared length is not caught: `setFav` is called with the
out-of-bounds slot and the dispatcher answers OK. -/
theorem C8_counterexample :
    (usbProcessIncoming envDefault {stDefault with memoryManagementModeApproved := true}
        USB_CALLER_MAIN ⟨5, CMD_SET_FAVORITE, [255, 16, 0, 17, 0]⟩).2 =
      [Event.setFav 255 16 17,
       Event.usbSendMessage CMD_SET_FAVORITE 1 [PLUGIN_BYTE_OK]] ∧
    USER_MAX_FAV ≤ 255 := by
  exact ⟨rfl, by decide⟩

/-- C8 amended: for `CMD_SET_FAVORITE` and `CMD_GET_FAVORITE` the
dispatcher validates only the declared length (5, resp. 1); a packet of
wrong length gets the error byte, and a packet of correct length has
its slot byte passed to `setFav`/`readFav` unvalidated, whatever its
value. -/
theorem C8_amended (env : Env) (st : DeviceState) (caller_id : Nat) (msgS msgG : UsbMsg)
    (hc : caller_id ≠ USB_CALLER_PIN) (hmm : st.memoryManagementModeApproved = true)
    (hS : msgS.cmd = CMD_SET_FAVORITE) (hG : msgG.cmd = CMD_GET_FAVORITE) :
    (msgS.len = 5 →
      usbProcessIncoming env st caller_id msgS =
        (st, [Event.setFav (msgS.data.getD 0 0) (wordAt msgS.data 1) (wordAt msgS.data 3),
              Event.usbSendMessage CMD_SET_FAVORITE 1 [PLUGIN_BYTE_OK]])) ∧
    (msgS.len ≠ 5 →
      usbProcessIncoming env st caller_id msgS =
        (st, [Event.usbSendMessage CMD_SET_FAVORITE 1 [PLUGIN_BYTE_ERROR]])) ∧
    (msgG.len = 1 →
      usbProcessIncoming env st caller_id msgG =
        (st, [Event.readFav (msgG.data.getD 0 0),
              Event.usbSendMessage CMD_GET_FAVORITE 4
                (word16Bytes (env.readFavResult (msgG.data.getD 0 0)).1 ++
                 word16Bytes (env.readFavResult (msgG.data.getD 0 0)).2)])) ∧
    (msgG.len ≠ 1 →
      usbProcessIncoming env st caller_id msgG =
        (st, [Event.usbSendMessage CMD_GET_FAVORITE 1 [PLUGIN_BYTE_ERROR]])) := by
  simp only [USB_CALLER_PIN] at hc
  refine ⟨?_, ?_, ?_, ?_⟩ <;> intro hlen
  · rw [usbProcessIncoming_eq_dispatch _ _ _ _ (by simp [hc, hS]) (by simp only [hS]; decide),
        hS, checkMemModeAndDispatch_ok _ _ _ _ _ (by simp [hmm]),
        dispatchSwitch_setFavorite _ _ _ _ _ (by rfl)]
    simp [handleSetFavorite, sendPRV, hlen]
  · rw [usbProcessIncoming_eq_dispatch _ _ _ _ (by simp [hc, hS]) (by simp only [hS]; decide),
        hS, checkMemModeAndDispatch_ok _ _ _ _ _ (by simp [hmm]),
        dispatchSwitch_setFavorite _ _ _ _ _ (by rfl)]
    simp [handleSetFavorite, sendPRV, hlen]
  · rw [usbProcessIncoming_eq_dispatch _ _ _ _ (by simp [hc, hG]) (by simp only [hG]; decide),
        hG, checkMemModeAndDispatch_ok _ _ _ _ _ (by simp [hmm]),
        dispatchSwitch_getFavorite _ _ _ _ _ (by rfl)]
    simp [handleGetFavorite, sendPRV, hlen]
  · rw [usbProcessIncoming_eq_dispatch _ _ _ _ (by simp [hc, hG]) (by simp only [hG]; decide),
        hG, checkMemModeAndDispatch_ok _ _ _ _ _ (by simp [hmm]),
        dispatchSwitch_getFavorite _ _ _ _ _ (by rfl)]
    simp [handleGetFavorite, sendPRV, hlen]

/-- Witness for C8 at concrete inputs. -/
theorem C8_witness :
    (0 : Nat) ≠ USB_CALLER_PIN ∧
    ({stDefault with memoryManagementModeApproved := true} :
        DeviceState).memoryManagementModeApproved = true ∧
    (UsbMsg.mk 5 50 [3, 16, 0, 17, 0]).cmd = CMD_SET_FAVORITE ∧
    (UsbMsg.mk 1 51 [3]).cmd = CMD_GET_FAVORITE ∧
    ((UsbMsg.mk 5 50 [3, 16, 0, 17, 0]).len = 5 →
      usbProcessIncoming envDefault {stDefault with memoryManagementModeApproved := true}
          0 ⟨5, 50, [3, 16, 0, 17, 0]⟩ =
        ({stDefault with memoryManagementModeApproved := true},
         [Event.setFav 3 16 17,
          Event.usbSendMessage CMD_SET_FAVORITE 1 [PLUGIN_BYTE_OK]])) := by
  refine ⟨by decide, rfl, by decide, by decide, ?_⟩
  have h := C8_amended envDefault {stDefault with memoryManagementModeApproved := true}
    0 ⟨5, 50, [3, 16, 0, 17, 0]⟩ ⟨1, 51, [3]⟩ (by decide) rfl (by decide) (by decide)
  intro hlen
  have := h.1 hlen
  simpa using this

/-- C4 counterexample: while node 8 is being written (staging buffer
holding byte 7 everywhere), an oversized sub-index-0
`CMD_WRITE_FLASH_NODE` packet for validly-owned node 16 (declared
length 200, so its cumulative offset 197 exceeds `NODE_SIZE`) is
rejected with the error byte — but only after re-targeting
`currentNodeWritten` to 16 and reloading the staging buffer with node
16's page (byte 9), so the staged buffer is not left uncorrupted. -/
theorem C4_counterexample :
    ((usbProcessIncoming envDefault
        {stDefault with memoryManagementModeApproved := true, currentNodeWritten := 8}
        USB_CALLER_MAIN ⟨200, CMD_WRITE_FLASH_NODE, [16, 0, 0, 1, 2]⟩).2 =
      [Event.loadPageToInternalBuffer 2,
       Event.usbSendMessage CMD_WRITE_FLASH_NODE 1 [PLUGIN_BYTE_ERROR]]) ∧
    (usbProcessIncoming envDefault
        {stDefault with memoryManagementModeApproved := true, currentNodeWritten := 8}
        USB_CALLER_MAIN ⟨200, CMD_WRITE_FLASH_NODE, [16, 0, 0, 1, 2]⟩).1.currentNodeWritten = 16 ∧
    (usbProcessIncoming envDefault
        {stDefault with memoryManagementModeApproved := true, currentNodeWritten := 8}
        USB_CALLER_MAIN ⟨200, CMD_WRITE_FLASH_NODE, [16, 0, 0, 1, 2]⟩).1.internalBuffer 0 = 9 ∧
    ({stDefault with memoryManagementModeApproved := true, currentNodeWritten := 8} :
      DeviceState).internalBuffer 0 = 7 :=
  ⟨rfl, by decide, by decide, by decide⟩

/-- C4 amended: a sub-index-0 packet passing the ownership check
establishes the target node and stages its flash page; each sub-indexed
packet appends its payload at offset `subindex * (PACKET_EXPORT_SIZE-3)`
within the staged node; writing a node via in-order sub-indexed packets
0, 1, 2 reconstructs content byte-identical to a single direct write of
the same (flags-stamped) payload, and the final sub-index flushes the
page; a packet with nonzero sub-index whose address does not match the
node currently being written, or whose cumulative offset would exceed
the fixed node size, is rejected with the error byte without touching
the staged buffer.  (A sub-index-0 packet for a validly-owned node
re-stages its page before the size check, so the original claim's
no-corruption guarantee does not extend to that case — see the
counterexample.) -/
theorem C4_amended (env : Env) (st st2 : DeviceState) (caller_id addr : Nat)
    (c0 c1 c2 : List Nat) (msg2 : UsbMsg)
    (hc : caller_id ≠ USB_CALLER_PIN)
    (hmm : st.memoryManagementModeApproved = true)
    (hperm : env.checkUserPermission addr = true)
    (haddr : addr ≠ NODE_ADDR_NULL) (haddr2 : addr < 65536)
    (h0 : c0.length = 59) (h1 : c1.length = 59) (h2 : c2.length = 14)
    (hmm2 : st2.memoryManagementModeApproved = true)
    (hcmd2 : msg2.cmd = CMD_WRITE_FLASH_NODE) (hlen2 : 3 ≤ msg2.len)
    (hsub2 : msg2.data.getD 2 0 ≠ 0)
    (hrej : st2.currentNodeWritten ≠ wordAt msg2.data 0 ∨
            NODE_SIZE < msg2.data.getD 2 0 * (PACKET_EXPORT_SIZE - 3) + (msg2.len - 3)) :
    runPackets env caller_id st (writeNodePackets addr c0 c1 c2) =
      (nodeWrittenState env st addr (c0 ++ c1 ++ c2),
       [Event.loadPageToInternalBuffer (pageNumberFromAddress addr),
        Event.flashWriteBuffer (stampNodeContent env.getCurrentUserID c0)
          (NODE_SIZE * nodeNumberFromAddress addr) c0.length,
        Event.usbSendMessage CMD_WRITE_FLASH_NODE 1 [PLUGIN_BYTE_OK],
        Event.flashWriteBuffer c1
          (NODE_SIZE * nodeNumberFromAddress addr + 1 * (PACKET_EXPORT_SIZE - 3)) c1.length,
        Event.usbSendMessage CMD_WRITE_FLASH_NODE 1 [PLUGIN_BYTE_OK],
        Event.flashWriteBuffer c2
          (NODE_SIZE * nodeNumberFromAddress addr + 2 * (PACKET_EXPORT_SIZE - 3)) c2.length,
        Event.flashWriteBufferToPage (pageNumberFromAddress addr),
        Event.usbSendMessage CMD_WRITE_FLASH_NODE 1 [PLUGIN_BYTE_OK]]) ∧
    usbProcessIncoming env st2 caller_id msg2 =
      (st2, [Event.usbSendMessage CMD_WRITE_FLASH_NODE 1 [PLUGIN_BYTE_ERROR]]) := by
  refine ⟨?_, writeFlashNode_reject env st2 caller_id msg2 hc hmm2 hcmd2 hlen2 hsub2 hrej⟩
  have e0 := writeFlashNode_sub0 env st caller_id addr c0 hc hmm hperm haddr haddr2
    (by rw [h0]; decide)
  have e1 := writeFlashNode_subk env
    {st with currentNodeWritten := addr,
             internalBuffer :=
               (writeBytes (fun i => st.flashPages (pageNumberFromAddress addr) i)
                 (NODE_SIZE * nodeNumberFromAddress addr)
                 (stampNodeContent env.getCurrentUserID c0))}
    caller_id addr 1 c1 hc hmm rfl haddr haddr2 (by decide) (by decide)
    (by rw [h1]; decide)
  have e2 := writeFlashNode_subflush env
    {{st with currentNodeWritten := addr,
              internalBuffer :=
                (writeBytes (fun i => st.flashPages (pageNumberFromAddress addr) i)
                  (NODE_SIZE * nodeNumberFromAddress addr)
                  (stampNodeContent env.getCurrentUserID c0))} with
       internalBuffer :=
         (writeBytes
           ({st with currentNodeWritten := addr,
                     internalBuffer :=
                       (writeBytes (fun i => st.flashPages (pageNumberFromAddress addr) i)
                         (NODE_SIZE * nodeNumberFromAddress addr)
                         (stampNodeContent env.getCurrentUserID c0))} : DeviceState).internalBuffer
           (NODE_SIZE * nodeNumberFromAddress addr + 1 * (PACKET_EXPORT_SIZE - 3)) c1)}
    caller_id addr c2 hc hmm rfl haddr haddr2 (by rw [h2]; decide)
  simp only [writeNodePackets]
  rw [runPackets_cons_eq _ _ _ _ _ _ _ e0, runPackets_cons_eq _ _ _ _ _ _ _ e1,
      runPackets_cons_eq _ _ _ _ _ _ _ e2]
  simp [runPackets, nodeWrittenState, h0, h1, h2, stampNodeContent_append,
    stampNodeContent_length, writeBytes_append, Nat.add_assoc, List.append_assoc]

/-- Witness for C4 at concrete inputs: a full three-packet write of
node 16, and a mismatched-address packet rejected without change. -/
theorem C4_witness :
    (0 : Nat) ≠ USB_CALLER_PIN ∧
    envDefault.checkUserPermission 16 = true ∧
    (16 : Nat) ≠ NODE_ADDR_NULL ∧
    (List.replicate 59 4).length = 59 ∧
    (UsbMsg.mk 3 49 [5, 0, 1]).cmd = CMD_WRITE_FLASH_NODE ∧
    (runPackets envDefault 0 {stDefault with memoryManagementModeApproved := true}
        (writeNodePackets 16 (List.replicate 59 4) (List.replicate 59 5) (List.replicate 14 6)) =
      (nodeWrittenState envDefault {stDefault with memoryManagementModeApproved := true} 16
         (List.replicate 59 4 ++ List.replicate 59 5 ++ List.replicate 14 6),
       [Event.loadPageToInternalBuffer (pageNumberFromAddress 16),
        Event.flashWriteBuffer
          (stampNodeContent envDefault.getCurrentUserID (List.replicate 59 4))
          (NODE_SIZE * nodeNumberFromAddress 16) (List.replicate 59 4).length,
        Event.usbSendMessage CMD_WRITE_FLASH_NODE 1 [PLUGIN_BYTE_OK],
        Event.flashWriteBuffer (List.replicate 59 5)
          (NODE_SIZE * nodeNumberFromAddress 16 + 1 * (PACKET_EXPORT_SIZE - 3))
          (List.replicate 59 5).length,
        Event.usbSendMessage CMD_WRITE_FLASH_NODE 1 [PLUGIN_BYTE_OK],
        Event.flashWriteBuffer (List.replicate 14 6)
          (NODE_SIZE * nodeNumberFromAddress 16 + 2 * (PACKET_EXPORT_SIZE - 3))
          (List.replicate 14 6).length,
        Event.flashWriteBufferToPage (pageNumberFromAddress 16),
        Event.usbSendMessage CMD_WRITE_FLASH_NODE 1 [PLUGIN_BYTE_OK]]) ∧
     usbProcessIncoming envDefault {stDefault with memoryManagementModeApproved := true} 0
         ⟨3, 49, [5, 0, 1]⟩ =
       ({stDefault with memoryManagementModeApproved := true},
        [Event.usbSendMessage CMD_WRITE_FLASH_NODE 1 [PLUGIN_BYTE_ERROR]])) := by
  refine ⟨by decide, by decide, by decide, by decide, by decide, ?_⟩
  exact C4_amended envDefault {stDefault with memoryManagementModeApproved := true}
    {stDefault with memoryManagementModeApproved := true} 0 16
    (List.replicate 59 4) (List.replicate 59 5) (List.replicate 14 6) ⟨3, 49, [5, 0, 1]⟩
    (by decide) rfl (by decide) (by decide) (by decide) (by decide) (by decide) (by decide)
    rfl (by decide) (by decide) (by decide) (Or.inl (by decide))

/-- C10: a `CMD_WRITE_FLASH_NODE` sub-index-0 packet failing the
user-permission check leaves `currentNodeWritten` unchanged (it is
rejected, not reset to `NODE_ADDR_NULL`); consequently a subsequent
packet addressed to the stale target held there from an earlier write
sequence is still accepted and written into the staging buffer. -/
theorem C10_stale_write_target (env : Env) (st : DeviceState) (caller_id A B k : Nat)
    (c : List Nat)
    (hc : caller_id ≠ USB_CALLER_PIN) (hmm : st.memoryManagementModeApproved = true)
    (hcur : st.currentNodeWritten = A) (hA : A ≠ NODE_ADDR_NULL) (hA2 : A < 65536)
    (_hB : B < 65536) (hAB : A ≠ B) (hperm : env.checkUserPermission B = false)
    (hk0 : k ≠ 0) (hk2 : k ≠ NODE_SIZE / (PACKET_EXPORT_SIZE - 3))
    (hbound : k * (PACKET_EXPORT_SIZE - 3) + c.length ≤ NODE_SIZE) :
    usbProcessIncoming env st caller_id ⟨3, CMD_WRITE_FLASH_NODE, [B % 256, B / 256, 0]⟩ =
      (st, [Event.usbSendMessage CMD_WRITE_FLASH_NODE 1 [PLUGIN_BYTE_ERROR]]) ∧
    usbProcessIncoming env st caller_id
        ⟨3 + c.length, CMD_WRITE_FLASH_NODE, A % 256 :: A / 256 :: k :: c⟩ =
      ({st with internalBuffer :=
          (writeBytes st.internalBuffer
            (NODE_SIZE * nodeNumberFromAddress A + k * (PACKET_EXPORT_SIZE - 3)) c)},
       [Event.flashWriteBuffer c
          (NODE_SIZE * nodeNumberFromAddress A + k * (PACKET_EXPORT_SIZE - 3)) c.length,
        Event.usbSendMessage CMD_WRITE_FLASH_NODE 1 [PLUGIN_BYTE_OK]]) := by
  refine ⟨?_, writeFlashNode_subk env st caller_id A k c hc hmm hcur hA hA2 hk0 hk2 hbound⟩
  simp only [USB_CALLER_PIN] at hc
  have hABne : st.currentNodeWritten ≠ B := by rw [hcur]; exact hAB
  rw [usbProcessIncoming_eq_dispatch _ _ _ _ (by simp [hc]) (by rfl),
      checkMemModeAndDispatch_ok _ _ _ _ _ (by simp [hmm]),
      dispatchSwitch_writeFlashNode _ _ _ _ _ (by rfl)]
  simp [handleWriteFlashNode, sendPRV, wordAt, hperm, hABne, Nat.mod_add_div]

/-- Witness for C10 at concrete inputs: ownership of node 5 denied,
`currentNodeWritten` stays at the stale node 8, and a sub-index-1
packet for node 8 is accepted and written. -/
theorem C10_witness :
    (0 : Nat) ≠ USB_CALLER_PIN ∧
    ({envDefault with checkUserPermission := fun _ => false} : Env).checkUserPermission 5 = false ∧
    ({stDefault with memoryManagementModeApproved := true, currentNodeWritten := 8} :
      DeviceState).currentNodeWritten = 8 ∧
    (usbProcessIncoming {envDefault with checkUserPermission := fun _ => false}
        {stDefault with memoryManagementModeApproved := true, currentNodeWritten := 8}
        0 ⟨3, CMD_WRITE_FLASH_NODE, [5 % 256, 5 / 256, 0]⟩ =
      ({stDefault with memoryManagementModeApproved := true, currentNodeWritten := 8},
       [Event.usbSendMessage CMD_WRITE_FLASH_NODE 1 [PLUGIN_BYTE_ERROR]]) ∧
     usbProcessIncoming {envDefault with checkUserPermission := fun _ => false}
        {stDefault with memoryManagementModeApproved := true, currentNodeWritten := 8}
        0 ⟨3 + ([1, 2, 3] : List Nat).length, CMD_WRITE_FLASH_NODE,
           8 % 256 :: 8 / 256 :: 1 :: [1, 2, 3]⟩ =
      ({{stDefault with memoryManagementModeApproved := true, currentNodeWritten := 8} with
          internalBuffer :=
            (writeBytes
              ({stDefault with memoryManagementModeApproved := true, currentNodeWritten := 8} : DeviceState).internalBuffer
              (NODE_SIZE * nodeNumberFromAddress 8 + 1 * (PACKET_EXPORT_SIZE - 3)) [1, 2, 3])},
       [Event.flashWriteBuffer [1, 2, 3]
          (NODE_SIZE * nodeNumberFromAddress 8 + 1 * (PACKET_EXPORT_SIZE - 3))
          ([1, 2, 3] : List Nat).length,
        Event.usbSendMessage CMD_WRITE_FLASH_NODE 1 [PLUGIN_BYTE_OK]])) := by
  refine ⟨by decide, rfl, rfl, ?_⟩
  exact C10_stale_write_target {envDefault with checkUserPermission := fun _ => false}
    {stDefault with memoryManagementModeApproved := true, currentNodeWritten := 8}
    0 8 5 1 [1, 2, 3] (by decide) rfl rfl (by decide) (by decide) (by decide) (by decide)
    rfl (by decide) (by decide) (by decide)

end Mooltipass
